import Mathlib

/-!
Verification development for the csmpe pre-migration core: a shallow
embedding, in Lean 4, of the inventory parser, the hardware compatibility
gate, the file-transfer post-condition checks, the firmware (FPD) upgrade
confirmation pass, the version gates, the SFTP transcript-sink handling,
and the convergence poller, together with theorems settling the frozen
claims about them.

Sources embedded:
- csmpe/core_plugins/csm_install_operations/ios_xr/pre_migrate.py
- csmpe/core_plugins/csm_install_operations/ios_xr/migration_lib.py
- csmpe/core_plugins/csm_node_status_check/ios_xr/plugin.py

Python text is modelled over List Char; machine-level behaviours
(byte comparison, str.strip, str.split, re patterns) are embedded as
executable functions defined below, each one a faithful translation of
the specific construct used at the corresponding source line.
-/

namespace Csmpe

/-! ## Python text primitives -/

/-- Whitespace class of Python regex backslash-s and of str.strip for byte
strings: space, tab, newline, carriage return, vertical tab, form feed. -/
def isWs (c : Char) : Bool :=
  c = ' ' || c = '\t' || c = '\n' || c = '\r' || c = '\x0b' || c = '\x0c'

/-- Python str.isdigit for a single byte character: exactly the ASCII
digits 0 to 9 (code points 48 to 57). -/
def pyIsDigit (c : Char) : Bool := decide (48 ≤ c.toNat) && decide (c.toNat ≤ 57)

/-- Python str.strip with no argument: remove leading and trailing
whitespace. -/
def pyStrip (s : List Char) : List Char :=
  ((s.dropWhile isWs).reverse.dropWhile isWs).reverse

/-- Substring containment, Python `needle in haystack` for strings. -/
def containsSub (needle : List Char) : List Char → Bool
  | [] => needle.isEmpty
  | c :: t => needle.isPrefixOf (c :: t) || containsSub needle t

/-- Python `needle in haystack` on String values. -/
def strContains (haystack needle : String) : Bool :=
  containsSub needle.data haystack.data

/-- Auxiliary for pySplitNl: accumulate the current field (reversed). -/
def splitNlAux (cur : List Char) : List Char → List (List Char)
  | [] => [cur.reverse]
  | '\n' :: t => cur.reverse :: splitNlAux [] t
  | c :: t => splitNlAux (c :: cur) t

/-- Python str.split with separator a single newline. -/
def pySplitNl (s : List Char) : List (List Char) := splitNlAux [] s

/-- Python 2 byte-string comparison `a < b`: lexicographic on byte values,
a strict prefix is smaller. -/
def pyStrLtL : List Char → List Char → Bool
  | [], [] => false
  | [], _ :: _ => true
  | _ :: _, [] => false
  | a :: as, b :: bs =>
    if a.toNat = b.toNat then pyStrLtL as bs else decide (a.toNat < b.toNat)

/-- Python `a < b` on String values. -/
def pyStrLt (a b : String) : Bool := pyStrLtL a.data b.data

/-- Association-list update with Python dict semantics: replace the value
of an existing key in place, otherwise append the new binding. -/
def updateAssoc {β : Type} : List (String × β) → String → β → List (String × β)
  | [], k, v => [(k, v)]
  | (k0, v0) :: rest, k, v =>
    if k0 = k then (k0, v) :: rest else (k0, v0) :: updateAssoc rest k v

/-! ## Regex building blocks

The source compiles a handful of fixed regular expressions.  Each is
embedded as a deterministic recognizer; determinism is justified case by
case because every optional or repeated piece is followed by a literal
that cannot overlap with it. -/

/-- Consume one expected character. -/
def chomp (c : Char) : List Char → Option (List Char)
  | d :: t => if d = c then some t else none
  | [] => none

/-- Consume a literal character sequence. -/
def dropLit : List Char → List Char → Option (List Char)
  | [], s => some s
  | _ :: _, [] => none
  | a :: as, b :: bs => if b = a then dropLit as bs else none

/-- Consume one-or-more ASCII digits, greedily (regex backslash-d +).
The callers all follow this with a non-digit literal, so maximal munch
coincides with the backtracking semantics. -/
def digits1 : List Char → Option (List Char)
  | [] => none
  | c :: t => if pyIsDigit c then some (t.dropWhile pyIsDigit) else none

/-- Consume `RS??P` / `RS?P` (an R, an optional S, then P).  With either
greedy or lazy `S?`, the match succeeds exactly when the input continues
with RP or RSP, because on backtracking the leftover S can never equal P. -/
def rpTail (s : List Char) : Option (List Char) := do
  let s ← chomp 'R' s
  match chomp 'S' s with
  | some s2 => chomp 'P' s2
  | none => chomp 'P' s

/-- Consume the optional `(?:RS?P)?` group followed by mandatory digits.
The group is entered exactly when the next character is R: skipping the
group instead would require that R to be a digit. -/
def rsOptP (s : List Char) : Option (List Char) :=
  match s with
  | 'R' :: _ => rpTail s
  | _ => some s

/-- re.match of ROUTEPROCESSOR_RE, the pattern
digits / R S-optional P digits / CPU digits, anchored at the start with
arbitrary trailing text. -/
def rpMatchL (s : List Char) : Bool :=
  (do
    let s ← digits1 s
    let s ← chomp '/' s
    let s ← rpTail s
    let s ← digits1 s
    let s ← chomp '/' s
    let s ← dropLit ['C', 'P', 'U'] s
    let _ ← digits1 s
    pure ()).isSome

/-- re.match of ROUTEPROCESSOR_RE on a String. -/
def rpMatch (s : String) : Bool := rpMatchL s.data

/-- re.match of FAN, the pattern digits / F T digits / S P. -/
def fanMatchL (s : List Char) : Bool :=
  (do
    let s ← digits1 s
    let s ← chomp '/' s
    let s ← dropLit ['F', 'T'] s
    let s ← digits1 s
    let s ← chomp '/' s
    let _ ← dropLit ['S', 'P'] s
    pure ()).isSome

/-- re.match of FAN on a String. -/
def fanMatch (s : String) : Bool := fanMatchL s.data

/-- re.match of PEM, the pattern digits / P [SM] digits / M-optional
digits / S P.  The optional M is entered exactly when the next character
is M, which is never a digit. -/
def pemMatchL (s : List Char) : Bool :=
  (do
    let s ← digits1 s
    let s ← chomp '/' s
    let s ← chomp 'P' s
    let s ←
      match chomp 'S' s with
      | some s2 => pure s2
      | none => chomp 'M' s
    let s ← digits1 s
    let s ← chomp '/' s
    let s ←
      match chomp 'M' s with
      | some s2 => digits1 s2
      | none => digits1 s
    let s ← chomp '/' s
    let _ ← dropLit ['S', 'P'] s
    pure ()).isSome

/-- re.match of PEM on a String. -/
def pemMatch (s : String) : Bool := pemMatchL s.data

/-- re.match of LINECARD_RE, the pattern digits / digits / CPU digits. -/
def linecardMatchL (s : List Char) : Bool :=
  (do
    let s ← digits1 s
    let s ← chomp '/' s
    let s ← digits1 s
    let s ← chomp '/' s
    let s ← dropLit ['C', 'P', 'U'] s
    let _ ← digits1 s
    pure ()).isSome

/-- re.match of LINECARD_RE on a String. -/
def linecardMatch (s : String) : Bool := linecardMatchL s.data

/-- re.match of NODE from pre_migrate.py, the pattern
digits / optional-RS?P digits / CPU digits. -/
def nodeMatchL (s : List Char) : Bool :=
  (do
    let s ← digits1 s
    let s ← chomp '/' s
    let s ← rsOptP s
    let s ← digits1 s
    let s ← chomp '/' s
    let s ← dropLit ['C', 'P', 'U'] s
    let _ ← digits1 s
    pure ()).isSome

/-- re.match of NODE from pre_migrate.py on a String. -/
def nodeMatch (s : String) : Bool := nodeMatchL s.data

/-- re.match of NODE from migration_lib.py, the pattern
digits / optional-RS?P digits. -/
def nodeLibMatchL (s : List Char) : Bool :=
  (do
    let s ← digits1 s
    let s ← chomp '/' s
    let s ← rsOptP s
    let _ ← digits1 s
    pure ()).isSome

/-- re.match of NODE from migration_lib.py on a String. -/
def nodeLibMatch (s : String) : Bool := nodeLibMatchL s.data

/-! ## Inventory data model -/

/-- One value of the inventory mapping built by the node status check:
the entry dict with keys type, state and config_state. -/
structure Entry where
  type : String
  state : String
  config_state : String
deriving DecidableEq

/-! ## Hardware compatibility gate (pre_migrate.py) -/

/-- VALID_STATE from pre_migrate.py. -/
def VALID_STATE : List String := ["IOS XR RUN", "PRESENT", "READY", "OK"]

/-- The supported-hardware table for one target release: the value of
supported_hw.get(version), with the four category lists, each absent
when the JSON key is missing. -/
structure SupportedHw where
  RP : Option (List String) := none
  LC : Option (List String) := none
  FAN : Option (List String) := none
  PEM : Option (List String) := none
deriving DecidableEq

/-- Python truthiness test `not supported_type_list` for an optional
list: true on None and on the empty list. -/
def falsyList : Option (List String) → Bool
  | none => true
  | some [] => true
  | some (_ :: _) => false

/-- The distinct fatal ctx.error calls reachable from the hardware
compatibility gate and from the selection of supported IOS-XR-RUN
nodes. -/
inductive GateErr where
  | notInValidState (node : String)
  | missingHwInfo
  | unsupportedCard (node : String)
  | missingRpLc
deriving DecidableEq

/-- Plugin._check_if_supported_and_in_valid_state: if the node name
matches the card pattern, error out fatally when the state is not in
VALID_STATE, when the supported list is missing or empty, or when no
supported substring occurs in the type string; return true when the node
is the asked card and supported, false when the pattern does not match. -/
def check_if_supported_and_in_valid_state (node_name : String)
    (card_pattern : String → Bool) (value : Entry)
    (supported_type_list : Option (List String)) : Except GateErr Bool :=
  if card_pattern node_name then
    if !(VALID_STATE.contains value.state) then
      .error (.notInValidState node_name)
    else if falsyList supported_type_list then
      .error .missingHwInfo
    else if (supported_type_list.getD []).any (fun t => strContains value.type t) then
      .ok true
    else
      .error (.unsupportedCard node_name)
  else
    .ok false

/-- Loop body of Plugin._check_if_rp_fan_pem_supported_and_in_valid_state
for one inventory item: try the RP pattern, then FAN, then PEM, stopping
at the first pattern that matches; a fatal error from any check aborts. -/
def gate_check_node (hw : SupportedHw) (key : String) (value : Entry) :
    Except GateErr Unit :=
  match check_if_supported_and_in_valid_state key rpMatch value hw.RP with
  | .error e => .error e
  | .ok rp_or_rsp =>
    if !rp_or_rsp then
      match check_if_supported_and_in_valid_state key fanMatch value hw.FAN with
      | .error e => .error e
      | .ok fan =>
        if !fan then
          match check_if_supported_and_in_valid_state key pemMatch value hw.PEM with
          | .error e => .error e
          | .ok _ => .ok ()
        else .ok ()
    else .ok ()

/-- Plugin._check_if_rp_fan_pem_supported_and_in_valid_state: fold the
per-node gate over the inventory items, aborting at the first fatal
error, and return True when every item passes. -/
def check_if_rp_fan_pem_supported_and_in_valid_state (hw : SupportedHw) :
    List (String × Entry) → Except GateErr Bool
  | [] => .ok true
  | (key, value) :: rest =>
    match gate_check_node hw key value with
    | .error e => .error e
    | .ok _ => check_if_rp_fan_pem_supported_and_in_valid_state hw rest

/-- The role a node name is dispatched to by the gate: the first of the
RP, FAN, PEM patterns that matches, none otherwise. -/
inductive Role where
  | RP
  | FAN
  | PEM
deriving DecidableEq

/-- First-match-wins role dispatch of the gate loop body. -/
def roleOf (key : String) : Option Role :=
  if rpMatch key then some .RP
  else if fanMatch key then some .FAN
  else if pemMatch key then some .PEM
  else none

/-- The supported-substring list the gate consults for a role. -/
def hwListOf (hw : SupportedHw) : Role → Option (List String)
  | .RP => hw.RP
  | .FAN => hw.FAN
  | .PEM => hw.PEM

/-! ## Column splitting and line scanning -/

/-- Prepend a character to the first field of a split result. -/
def consHead (c : Char) : List (List Char) → List (List Char)
  | [] => [[c]]
  | l :: ls => (c :: l) :: ls

/-- Auxiliary for splitWs2.  The flag is true while the tail of a
two-or-more whitespace separator is being consumed. -/
def splitWs2Aux : Bool → List Char → List (List Char)
  | _, [] => [[]]
  | true, c :: t =>
    if isWs c then splitWs2Aux true t else consHead c (splitWs2Aux false t)
  | false, [c] => [[c]]
  | false, c :: d :: t =>
    if isWs c && isWs d then [] :: splitWs2Aux true t
    else consHead c (splitWs2Aux false (d :: t))

/-- re.split on runs of two-or-more whitespace characters (the pattern
backslash-s backslash-s +): a maximal run of at least two whitespace
characters separates fields, a single whitespace character stays inside
its field. -/
def splitWs2 (s : List Char) : List (List Char) := splitWs2Aux false s

/-- re.search of the pattern CPU digits-plus end-anchor: the string ends
in one or more digits immediately preceded by the letters CPU.  The
backslash-d + must reach the end of the string, so it matches exactly
when the maximal trailing digit run is nonempty and preceded by CPU. -/
def endsWithCpuNum (s : List Char) : Bool :=
  let r := s.reverse
  let ds := r.takeWhile pyIsDigit
  !ds.isEmpty && ['U', 'P', 'C'].isPrefixOf (r.drop ds.length)

/-- Auxiliary for pySplitlines: accumulate the current line (reversed);
a terminator at the very end of the text produces no extra empty line. -/
def splitlinesAux (cur : List Char) : List Char → List (List Char)
  | [] => [cur.reverse]
  | '\r' :: '\n' :: t =>
    cur.reverse :: (match t with | [] => [] | u => splitlinesAux [] u)
  | '\n' :: t =>
    cur.reverse :: (match t with | [] => [] | u => splitlinesAux [] u)
  | '\r' :: t =>
    cur.reverse :: (match t with | [] => [] | u => splitlinesAux [] u)
  | c :: t => splitlinesAux (c :: cur) t

/-- Python str.splitlines for byte strings: split on newline, carriage
return, or the pair of both, with no trailing empty line. -/
def pySplitlines : List Char → List (List Char)
  | [] => []
  | s => splitlinesAux [] s

/-! ## Inventory parser (csm_node_status_check plugin.py) -/

/-- Python exceptions and fatal plugin aborts observable from the node
status check. -/
inductive PyErr where
  | valueError
  | attributeError
  | pluginError (msg : String)
deriving DecidableEq

/-- Outcome of processing one line of show-platform output inside
Plugin._parse_show_platform. -/
inductive LineResult where
  | skip
  | entry (node : String) (e : Entry)
  | unsupportedFamily
  | arityError
deriving DecidableEq

/-- Loop body of Plugin._parse_show_platform for one raw line: strip it,
keep it only when nonempty and starting with a digit, split it on runs of
two-or-more whitespace characters, discard it unless the first column
ends in a CPU-instance suffix, and then unpack the columns according to
the platform family - four for ASR9K, five for CRS (the PLIM column is
dropped); any other field count raises, and any other family returns the
unsupported-platform outcome. -/
def parse_platform_line (family : String) (raw : List Char) : LineResult :=
  match pyStrip raw with
  | [] => .skip
  | c :: cs =>
    if pyIsDigit c then
      let states := splitWs2 (c :: cs)
      if !endsWithCpuNum states.headI then .skip
      else if family = "ASR9K" then
        match states with
        | [node, node_type, state, config_state] =>
          .entry (String.mk node)
            ⟨String.mk node_type, String.mk state, String.mk config_state⟩
        | _ => .arityError
      else if family = "CRS" then
        match states with
        | [node, node_type, _plim, state, config_state] =>
          .entry (String.mk node)
            ⟨String.mk node_type, String.mk state, String.mk config_state⟩
        | _ => .arityError
      else .unsupportedFamily
    else .skip

/-- Line loop of Plugin._parse_show_platform: build the inventory dict,
returning None (after a warning) on an unsupported platform family and
raising ValueError on a column-count mismatch. -/
def parse_show_platform_go (family : String) :
    List (List Char) → List (String × Entry) →
    Except PyErr (Option (List (String × Entry)))
  | [], inv => .ok (some inv)
  | line :: rest, inv =>
    match parse_platform_line family line with
    | .skip => parse_show_platform_go family rest inv
    | .entry node e => parse_show_platform_go family rest (updateAssoc inv node e)
    | .unsupportedFamily => .ok none
    | .arityError => .error .valueError

/-- Plugin._parse_show_platform: split the command output on newlines and
fold the line parser over the lines. -/
def parse_show_platform (family : String) (output : String) :
    Except PyErr (Option (List (String × Entry))) :=
  parse_show_platform_go family (pySplitNl output.data) []

/-! ## Node status check (plugin.py run) -/

/-- The valid_state list of the node status check (the upgrade check). -/
def upgrade_valid_state : List String :=
  ["IOS XR RUN", "PRESENT", "READY", "FAILED", "OK", "DISABLED",
   "UNPOWERED", "ADMIN DOWN", "NOT ALLOW ONLIN"]

/-- The states the node status check accepts beyond the migration gate
VALID_STATE. -/
def upgrade_extra_states : List String :=
  ["FAILED", "DISABLED", "UNPOWERED", "ADMIN DOWN", "NOT ALLOW ONLIN"]

/-- The loop of Plugin.run: the first inventory item whose key contains
CPU and whose state is not in valid_state (the loop breaks there). -/
def node_status_bad_node : List (String × Entry) → Option (String × Entry)
  | [] => none
  | p :: rest =>
    if strContains p.1 "CPU" && !(upgrade_valid_state.contains p.2.state) then some p
    else node_status_bad_node rest

/-- Tail of Plugin.run after parsing: error out fatally when some CPU
node is in an invalid state, otherwise save the inventory under the name
inventory and succeed. -/
def node_status_check (inventory : List (String × Entry)) :
    Except PyErr (String × List (String × Entry)) :=
  match node_status_bad_node inventory with
  | some _ => .error (.pluginError "Not all nodes in correct state. Upgrade can not proceed")
  | none => .ok ("inventory", inventory)

/-- Plugin.run of the node status check: send admin show platform (the
output is the oracle argument), parse it, and check states.  A None
inventory from an unsupported family hits inventory.items() in the
source, which raises AttributeError. -/
def node_status_run (family : String) (output : String) :
    Except PyErr (String × List (String × Entry)) :=
  match parse_show_platform family output with
  | .error e => .error e
  | .ok none => .error .attributeError
  | .ok (some inv) => node_status_check inv


/-! ## File transfer coordinator (pre_migrate.py) -/

/-- The distinct fatal ctx.error calls of the per-file copy loops, plus
the IndexError Python would raise when the destination list is shorter
than the source list. -/
inductive CopyErr where
  | fsmFailed (src dest : String)
  | notOnDevice (src dest : String)
  | indexError
deriving DecidableEq

/-- The copy command sent for one FTP/TFTP transfer. -/
def copy_command (repository src dest : String) : String :=
  "copy " ++ repository ++ "/" ++ src ++ " " ++ dest

/-- Plugin._copy_files_from_ftp_tftp_to_device: for each source and
destination pair, run the copy automaton (modelled by the boolean oracle
run_fsm applied to the command string) and error out when it fails; then
send a dir command on the destination (the send oracle) and error out
when the listing contains No such file. -/
def copy_files_from_ftp_tftp_to_device (repository : String)
    (run_fsm : String → Bool) (send : String → String) :
    List String → List String → Except CopyErr Unit
  | [], _ => .ok ()
  | _ :: _, [] => .error .indexError
  | src :: srcs, dest :: dests =>
    if run_fsm (copy_command repository src dest) = false then
      .error (.fsmFailed src dest)
    else if strContains (send ("dir " ++ dest)) "No such file" then
      .error (.notOnDevice src dest)
    else copy_files_from_ftp_tftp_to_device repository run_fsm send srcs dests

/-- The sftp command sent for one SFTP transfer, with the optional vrf. -/
def sftp_command (username source_path : String) (vrf : Option String)
    (src dest : String) : String :=
  match vrf with
  | none => "sftp " ++ username ++ "@" ++ source_path ++ "/" ++ src ++ " " ++ dest
  | some v =>
    "sftp " ++ username ++ "@" ++ source_path ++ "/" ++ src ++ " " ++ dest ++ " vrf " ++ v

/-- Plugin._copy_files_from_sftp_to_device, per-file loop: run the sftp
copy automaton and error out when it fails; reattach the session log if
needed (tracked separately in the automaton model below); then send a
dir command on the destination and error out when the listing contains
No such file. -/
def copy_files_from_sftp_to_device (username source_path : String)
    (vrf : Option String) (run_fsm : String → Bool) (send : String → String) :
    List String → List String → Except CopyErr Unit
  | [], _ => .ok ()
  | _ :: _, [] => .error .indexError
  | src :: srcs, dest :: dests =>
    if run_fsm (sftp_command username source_path vrf src dest) = false then
      .error (.fsmFailed src dest)
    else if strContains (send ("dir " ++ dest)) "No such file" then
      .error (.notOnDevice src dest)
    else copy_files_from_sftp_to_device username source_path vrf run_fsm send srcs dests

/-! ## Firmware upgrade confirmation (pre_migrate.py _upgrade_all_fpds)

The success pattern is the regex
Successfully backslash-s * (?:downgrade|upgrade) backslash-s * subtype
.* location backslash-s * location, searched anywhere in the log by
re.search; only truthiness of the search is used, so the embedding
decides whether any match exists. -/

/-- Existence of a match of continuation p after consuming zero or more
whitespace characters (regex backslash-s *). -/
def afterWsStar (p : List Char → Bool) : List Char → Bool
  | [] => p []
  | c :: t => p (c :: t) || (isWs c && afterWsStar p t)

/-- Existence of a match of continuation p after consuming zero or more
non-newline characters (regex .*). -/
def afterDotStar (p : List Char → Bool) : List Char → Bool
  | [] => p []
  | c :: t => p (c :: t) || (!(c = '\n') && afterDotStar p t)

/-- Match a literal then the continuation p. -/
def litThen (lit : List Char) (p : List Char → Bool) (s : List Char) : Bool :=
  match dropLit lit s with
  | some r => p r
  | none => false

/-- Existence of a match of p at some suffix of the text (re.search). -/
def anySuffix (p : List Char → Bool) : List Char → Bool
  | [] => p []
  | c :: t => p (c :: t) || anySuffix p t

/-- The tail of the FPD success pattern after the downgrade or upgrade
alternative: whitespace, the subtype, any characters, the word location,
whitespace, the location. -/
def fpdPatTail (fpdtype location : List Char) : List Char → Bool :=
  afterWsStar (litThen fpdtype (afterDotStar (litThen
    ['l', 'o', 'c', 'a', 't', 'i', 'o', 'n']
    (afterWsStar (fun s => (dropLit location s).isSome)))))

/-- The full FPD success pattern anchored at one position. -/
def fpdPatAt (fpdtype location : List Char) : List Char → Bool :=
  litThen ['S', 'u', 'c', 'c', 'e', 's', 's', 'f', 'u', 'l', 'l', 'y']
    (afterWsStar (fun s =>
      litThen ['d', 'o', 'w', 'n', 'g', 'r', 'a', 'd', 'e'] (fpdPatTail fpdtype location) s ||
      litThen ['u', 'p', 'g', 'r', 'a', 'd', 'e'] (fpdPatTail fpdtype location) s))

/-- Truthiness of re.search of the FPD success pattern in the log. -/
def fpd_search (fpdtype location log : String) : Bool :=
  anySuffix (fpdPatAt fpdtype.data location.data) log.data

/-- The fatal ctx.error calls of _upgrade_all_fpds. -/
inductive FpdErr where
  | fsmErr (fpdtype : String)
  | upgradeNotConfirmed (fpdtype location : String)
deriving DecidableEq

/-- The forced upgrade command sent for one FPD subtype. -/
def fpd_upgrade_command (fpdtype : String) : String :=
  "admin upgrade hw-module fpd " ++ fpdtype ++ " force location all"

/-- Location loop of _upgrade_all_fpds for one subtype: every location in
the need list must have a success line in the fetched log, else the first
missing one is a fatal error. -/
def check_locations (fpdtype : String) (fpd_log : String) :
    List String → Except FpdErr Unit
  | [] => .ok ()
  | loc :: locs =>
    if fpd_search fpdtype loc fpd_log = false then
      .error (.upgradeNotConfirmed fpdtype loc)
    else check_locations fpdtype fpd_log locs

/-- Plugin._upgrade_all_fpds: for each subtype with locations needing
upgrade, run the forced-upgrade automaton (oracle run_fsm on the command
string) and error out when it fails, re-fetch the FPD log (oracle
send_log, indexed by the subtype since the log is fetched right after
that automaton run) and require a success line for every location. -/
def upgrade_all_fpds (run_fsm : String → Bool) (send_log : String → String) :
    List (String × List String) → Except FpdErr Bool
  | [] => .ok true
  | (fpdtype, locs) :: rest =>
    if run_fsm (fpd_upgrade_command fpdtype) = false then
      .error (.fsmErr fpdtype)
    else
      match check_locations fpdtype (send_log fpdtype) locs with
      | .error e => .error e
      | .ok _ => upgrade_all_fpds run_fsm send_log rest

/-! ## Version gates (pre_migrate.py run and _ensure_updated_fpd) -/

/-- MINIMUM_RELEASE_VERSION_FOR_MIGRATION from pre_migrate.py. -/
def MINIMUM_RELEASE_VERSION_FOR_MIGRATION : String := "5.3.3"

/-- RELEASE_VERSION_DOES_NOT_NEED_FPD_SMU from pre_migrate.py. -/
def RELEASE_VERSION_DOES_NOT_NEED_FPD_SMU : String := "6.1.1"

/-- Match of the pattern digit dot digit dot digit at one position
(the capture group of the regex in re.search, whose trailing .* always
succeeds). -/
def versionAt : List Char → Option (List Char)
  | a :: b :: c :: d :: e :: _ =>
    if pyIsDigit a && b = '.' && pyIsDigit c && d = '.' && pyIsDigit e then
      some [a, b, c, d, e]
    else none
  | _ => none

/-- re.search of the version pattern: the leftmost match of
digit dot digit dot digit. -/
def extract_version : List Char → Option (List Char)
  | [] => none
  | c :: t =>
    match versionAt (c :: t) with
    | some v => some v
    | none => extract_version t

/-- The version gate at the end of Plugin.run: extract the d.d.d
version from ctx.os_version, error out on no match, error out when the
extracted version compares (Python string comparison) below the minimum
release, and otherwise hand the version on (recording whether
_ensure_updated_fpd will take the FPD SMU branch). -/
inductive VersionGate where
  | badOsVersion
  | belowMinimum
  | proceed (version : String) (needs_fpd_smu : Bool)
deriving DecidableEq

/-- Python string comparison gate of _ensure_updated_fpd: the FPD SMU
install step applies when version < RELEASE_VERSION_DOES_NOT_NEED_FPD_SMU. -/
def fpd_smu_needed (version : String) : Bool :=
  pyStrLt version RELEASE_VERSION_DOES_NOT_NEED_FPD_SMU

/-- The composed version gating of Plugin.run (lines 966 to 975) plus
the SMU branch condition it passes into _ensure_updated_fpd. -/
def run_version_gate (os_version : String) : VersionGate :=
  match extract_version os_version.data with
  | none => .badOsVersion
  | some v =>
    let version := String.mk v
    if pyStrLt version MINIMUM_RELEASE_VERSION_FOR_MIGRATION then .belowMinimum
    else .proceed version (fpd_smu_needed version)

/-! ## Numeric version comparison (the wording of the specification)

The specification describes the gates as parsed, component-wise numeric
version comparison.  The following definitions follow the words of the
specification, for comparison against the string comparison the source
performs. -/

/-- Auxiliary for splitOnDot. -/
def splitOnDotAux (cur : List Char) : List Char → List (List Char)
  | [] => [cur.reverse]
  | '.' :: t => cur.reverse :: splitOnDotAux [] t
  | c :: t => splitOnDotAux (c :: cur) t

/-- Split a dotted string into components. -/
def splitOnDot (s : List Char) : List (List Char) := splitOnDotAux [] s

/-- Decimal value of a digit string. -/
def digitsToNat (s : List Char) : Nat :=
  s.foldl (fun n c => 10 * n + (c.toNat - 48)) 0

/-- Lexicographic order on numeric component lists, shorter prefix
first. -/
def natListLt : List Nat → List Nat → Bool
  | [], [] => false
  | [], _ :: _ => true
  | _ :: _, [] => false
  | a :: as, b :: bs => if a = b then natListLt as bs else decide (a < b)

/-- Component-wise numeric version comparison, following the words of
the specification (not the source, which compares strings). -/
def specNumericVersionLt (a b : String) : Bool :=
  natListLt ((splitOnDot a.data).map digitsToNat) ((splitOnDot b.data).map digitsToNat)

/-! ## Supported node selection (pre_migrate.py and migration_lib.py) -/

/-- Plugin._get_supported_iosxr_run_nodes: with both the RP and LC lists
present and nonempty, keep the inventory keys that match the NODE
pattern, are in state IOS XR RUN, and whose type string CONTAINS one of
the supported card substrings. -/
def get_supported_iosxr_run_nodes_go (supported_cards : List String) :
    List (String × Entry) → List String
  | [] => []
  | (key, value) :: rest =>
    if nodeMatch key then
      if value.state = "IOS XR RUN" then
        if supported_cards.any (fun card => strContains value.type card) then
          key :: get_supported_iosxr_run_nodes_go supported_cards rest
        else get_supported_iosxr_run_nodes_go supported_cards rest
      else get_supported_iosxr_run_nodes_go supported_cards rest
    else get_supported_iosxr_run_nodes_go supported_cards rest

/-- Plugin._get_supported_iosxr_run_nodes (pre_migrate.py). -/
def get_supported_iosxr_run_nodes (hw : SupportedHw)
    (inventory : List (String × Entry)) : Except GateErr (List String) :=
  if falsyList hw.RP || falsyList hw.LC then .error .missingRpLc
  else .ok (get_supported_iosxr_run_nodes_go (hw.RP.getD [] ++ hw.LC.getD []) inventory)

/-- parse_exr_admin_show_platform (migration_lib.py): for each stripped
line starting with a digit, the node name is the stripped first ten
characters and the value stored is the stripped characters ten to
thirty-four FOLLOWED BY THE TRAILING COMMA present in the source, which
makes the stored value a one-element tuple, modelled as a one-element
list. -/
def parse_exr_admin_show_platform_go :
    List (List Char) → List (String × List String) → List (String × List String)
  | [], inv => inv
  | line :: rest, inv =>
    match pyStrip line with
    | [] => parse_exr_admin_show_platform_go rest inv
    | c :: cs =>
      if pyIsDigit c then
        let node := String.mk (pyStrip ((c :: cs).take 10))
        let node_type := [String.mk (pyStrip (((c :: cs).drop 10).take 24))]
        parse_exr_admin_show_platform_go rest (updateAssoc inv node node_type)
      else parse_exr_admin_show_platform_go rest inv

/-- parse_exr_admin_show_platform (migration_lib.py). -/
def parse_exr_admin_show_platform (output : String) : List (String × List String) :=
  parse_exr_admin_show_platform_go (pySplitNl output.data) []

/-- get_all_supported_nodes (migration_lib.py): keep the nodes matching
the short NODE pattern for which some supported card is a MEMBER of the
stored tuple - Python `card in node_type` on a tuple tests element
equality, not substring containment. -/
def get_all_supported_nodes_go (supported_cards : List String) :
    List (String × List String) → List String
  | [] => []
  | (node, node_type) :: rest =>
    if nodeLibMatch node then
      if supported_cards.any (fun card => node_type.contains card) then
        node :: get_all_supported_nodes_go supported_cards rest
      else get_all_supported_nodes_go supported_cards rest
    else get_all_supported_nodes_go supported_cards rest

/-- get_all_supported_nodes (migration_lib.py), with the admin show
platform output as an oracle argument. -/
def get_all_supported_nodes (output : String) (supported_cards : List String) :
    List String :=
  get_all_supported_nodes_go supported_cards (parse_exr_admin_show_platform output)

/-! ## SFTP copy automaton and the session transcript sink (pre_migrate.py)

The transition table below is the one built inside
Plugin._copy_files_from_sftp_to_device; the action callbacks are the
closures send_password, send_yes, reinstall_logfile and error defined
there.  The context tracks the two attributes those closures touch: the
session logfile sink (logfile_read) and the saved descriptor
(session_fd), plus the lines echoed to the session and the failure
message. -/

/-- The mutable state the SFTP copy action callbacks read and write. -/
structure SftpCtx where
  logfile_read : Option Nat
  session_fd : Option Nat
  sent : List String
  password : String
  message : Option String
deriving DecidableEq

/-- send_password: echo the password to the session, then detach the
transcript sink if it is attached.  Returns True (continue). -/
def send_password (c : SftpCtx) : Bool × SftpCtx :=
  let c := { c with sent := c.password :: c.sent }
  let c := if c.logfile_read.isSome then { c with logfile_read := none } else c
  (true, c)

/-- send_yes: echo yes to the session, then detach the transcript sink
if it is attached.  Returns True (continue). -/
def send_yes (c : SftpCtx) : Bool × SftpCtx :=
  let c := { c with sent := "yes" :: c.sent }
  let c := if c.logfile_read.isSome then { c with logfile_read := none } else c
  (true, c)

/-- reinstall_logfile: reattach the transcript sink when the saved
descriptor exists and the sink is detached, else fail with a message. -/
def reinstall_logfile (c : SftpCtx) : Bool × SftpCtx :=
  if c.session_fd.isSome && c.logfile_read.isNone then
    (true, { c with logfile_read := c.session_fd })
  else
    (false, { c with message := some "Error reinstalling session.log." })

/-- error: reattach the transcript sink when possible, set the failure
message, and fail. -/
def sftp_error (c : SftpCtx) : Bool × SftpCtx :=
  let c :=
    if c.session_fd.isSome && c.logfile_read.isNone then
      { c with logfile_read := c.session_fd }
    else c
  (false, { c with message := some "Error copying file." })

/-- The recognizable output markers of the SFTP copy table. -/
inductive SftpEvent where
  | PROMPT
  | PASSWORD
  | CONFIRM_OVERWRITE
  | COPIED
  | TIMEOUT
  | NO_SUCH_FILE
  | DOWNLOAD_ABORTED
deriving DecidableEq

/-- One row of the transition table: pattern, applicable states, next
state, action, action timeout. -/
structure SftpTransition where
  pattern : SftpEvent
  applicable_states : List Int
  next_state : Int
  action : SftpCtx → Bool × SftpCtx
  action_timeout : Nat

/-- The SFTP copy transition table from
Plugin._copy_files_from_sftp_to_device, in declaration order; tmo is the
per-copy timeout parameter. -/
def sftp_transitions (tmo : Nat) : List SftpTransition :=
  [ ⟨.PASSWORD, [0], 1, send_password, tmo⟩,
    ⟨.CONFIRM_OVERWRITE, [1], 2, send_yes, tmo⟩,
    ⟨.COPIED, [1, 2], -1, reinstall_logfile, 0⟩,
    ⟨.PROMPT, [1, 2], -1, reinstall_logfile, 0⟩,
    ⟨.TIMEOUT, [0, 1, 2], -1, sftp_error, 0⟩,
    ⟨.NO_SUCH_FILE, [0, 1, 2], -1, sftp_error, 0⟩,
    ⟨.DOWNLOAD_ABORTED, [0, 1, 2], -1, sftp_error, 0⟩ ]

/-- Outcome of the automaton: still running in a state, succeeded
(reached state -1), failed because an action returned False, or failed
because a matched pattern had no applicable transition.  The last two
are both failures of the run; they are distinguished here because they
leave the context differently. -/
inductive FsmOutcome where
  | running (st : Int) (c : SftpCtx)
  | succeeded (c : SftpCtx)
  | failed (c : SftpCtx)
  | mismatch (st : Int) (c : SftpCtx)

/-- Modelled from the spec: the generic session automaton (ctx.run_fsm,
provided by the external condoor session layer, is not under src).  Per
section 4.3 of the specification, on a matched pattern the transitions
are scanned in declaration order and the first one whose pattern equals
the matched marker and whose applicable states contain the current state
fires. -/
def findTransition (e : SftpEvent) (st : Int) :
    List SftpTransition → Option SftpTransition
  | [] => none
  | t :: rest =>
    if t.pattern = e && st ∈ t.applicable_states then some t
    else findTransition e st rest

/-- Modelled from the spec: one automaton step on a matched pattern - no
applicable transition is a failure; otherwise the action runs, a False
action fails the run with the action message, and otherwise the run
moves to the next state, state -1 being success. -/
def fsmStep (table : List SftpTransition) (st : Int) (c : SftpCtx)
    (e : SftpEvent) : FsmOutcome :=
  match findTransition e st table with
  | none => .mismatch st c
  | some t =>
    let (ok, c2) := t.action c
    if ok = false then .failed c2
    else if t.next_state = -1 then .succeeded c2
    else .running t.next_state c2

/-- Modelled from the spec: drive the automaton over the sequence of
matched patterns until a terminal outcome; an exhausted sequence leaves
the run in its current state (in the real engine the bounded wait then
produces the TIMEOUT marker, which is part of the event alphabet here). -/
def fsmRun (table : List SftpTransition) (st : Int) (c : SftpCtx) :
    List SftpEvent → FsmOutcome
  | [] => .running st c
  | e :: es =>
    match fsmStep table st c e with
    | .running st2 c2 => fsmRun table st2 c2 es
    | r => r

/-! ## Convergence poller (migration_lib.py wait_for_final_band) -/

/-- check_sw_status line loop: every stripped line starting with a digit
must carry FINAL Band in its characters forty-eight to sixty-four. -/
def check_sw_status_go : List (List Char) → Bool
  | [] => true
  | line :: rest =>
    match pyStrip line with
    | [] => check_sw_status_go rest
    | c :: cs =>
      if pyIsDigit c then
        let sw_status := pyStrip (((c :: cs).drop 48).take 16)
        if !(containsSub "FINAL Band".data sw_status) then false
        else check_sw_status_go rest
      else check_sw_status_go rest

/-- check_sw_status (migration_lib.py). -/
def check_sw_status (output : String) : Bool :=
  check_sw_status_go (pySplitlines output.data)

/-- The all_nodes_present scan of the wait loop: every supported node
name occurs as a substring of the sampled output. -/
def all_nodes_present (supported_nodes : List String) (output : String) : Bool :=
  supported_nodes.all (fun node => strContains output node)

/-- timeout of wait_for_final_band. -/
def WFB_TIMEOUT : Nat := 1080

/-- poll_time of wait_for_final_band. -/
def WFB_POLL : Nat := 20

/-- The while loop of wait_for_final_band.  Each iteration first adds
poll_time to time_waited and breaks with failure when the sum reaches
the timeout, BEFORE sleeping; only then does it sleep poll_time and take
sample number i (the outputs oracle).  The result records the returned
boolean, the total time slept, and the accounted elapsed time at which
each sample was taken.  The extra fuel argument only bounds the
recursion depth for Lean; its exhaustion branch returns the same value
as the deadline break, and wait_loop_fuel_stable below shows that with
the fuel used by wait_for_final_band the deadline check always breaks
the loop first, so the fuel is semantically inert. -/
def wait_for_final_band_loop (nodes : List String) (outputs : Nat → String) :
    Nat → Nat → Nat → Bool × Nat × List Nat
  | 0, _, _ => (false, 0, [])
  | fuel + 1, i, time_waited =>
    let tw := time_waited + WFB_POLL
    if WFB_TIMEOUT ≤ tw then (false, 0, [])
    else
      let output := outputs i
      if all_nodes_present nodes output && check_sw_status output then
        (true, WFB_POLL, [tw])
      else
        let r := wait_for_final_band_loop nodes outputs fuel (i + 1) tw
        (r.1, WFB_POLL + r.2.1, tw :: r.2.2)

/-- wait_for_final_band (migration_lib.py), from the initial counters,
with fuel covering the 54 deadline checks the loop can reach. -/
def wait_for_final_band (nodes : List String) (outputs : Nat → String) :
    Bool × Nat × List Nat :=
  wait_for_final_band_loop nodes outputs 54 0 0

/-! ## Theorems -/

/-- A non-matching card pattern makes the per-card check return false
without any violation. -/
theorem check_no_match (node : String) (pat : String → Bool) (v : Entry)
    (l : Option (List String)) (h : pat node = false) :
    check_if_supported_and_in_valid_state node pat v l = .ok false := by
  simp [check_if_supported_and_in_valid_state, h]

/-- A matching card pattern with a state outside VALID_STATE is a fatal
not-in-valid-state violation. -/
theorem check_bad_state (node : String) (pat : String → Bool) (v : Entry)
    (l : Option (List String)) (hp : pat node = true)
    (hs : VALID_STATE.contains v.state = false) :
    check_if_supported_and_in_valid_state node pat v l =
      .error (.notInValidState node) := by
  have hs2 : v.state ∉ VALID_STATE := by simpa using hs
  simp [check_if_supported_and_in_valid_state, hp, hs2]

/-- A matching card pattern, valid state and a supported substring in the
type string pass the check. -/
theorem check_supported (node : String) (pat : String → Bool) (v : Entry)
    (ls : List String) (hp : pat node = true)
    (hs : VALID_STATE.contains v.state = true) (hne : ls ≠ [])
    (ha : ls.any (fun t => strContains v.type t) = true) :
    check_if_supported_and_in_valid_state node pat v (some ls) = .ok true := by
  have hs2 : v.state ∈ VALID_STATE := by simpa using hs
  cases ls with
  | nil => exact absurd rfl hne
  | cons a as => simp [check_if_supported_and_in_valid_state, hp, hs2, falsyList, ha]

/-- A matching card pattern, valid state and no supported substring in
the type string is a fatal unsupported-hardware violation. -/
theorem check_unsupported (node : String) (pat : String → Bool) (v : Entry)
    (ls : List String) (hp : pat node = true)
    (hs : VALID_STATE.contains v.state = true) (hne : ls ≠ [])
    (ha : ls.any (fun t => strContains v.type t) = false) :
    check_if_supported_and_in_valid_state node pat v (some ls) =
      .error (.unsupportedCard node) := by
  have hs2 : v.state ∈ VALID_STATE := by simpa using hs
  cases ls with
  | nil => exact absurd rfl hne
  | cons a as => simp [check_if_supported_and_in_valid_state, hp, hs2, falsyList, ha]

/-- Claim C1 (amended: the gate tries the route-processor, fan and
power-entry-module patterns, in that priority order - the line-card
pattern is not among them): for every inventory node the first matching
role pattern wins, so the node is checked against at most one role; a
node matching no role pattern, line cards included, contributes nothing;
for the matched role, a fatal not-in-valid-state violation is raised
when the operational state is outside VALID_STATE, a fatal
unsupported-hardware violation is raised when the type string contains
none of the supported substrings of that role, and no violation at all
is raised for this node when its state is valid and its type string
contains a supported substring. -/
theorem c1_hardware_gate (hw : SupportedHw) (key : String) (value : Entry)
    (rest : List (String × Entry)) :
    (roleOf key = none →
      check_if_rp_fan_pem_supported_and_in_valid_state hw ((key, value) :: rest) =
        check_if_rp_fan_pem_supported_and_in_valid_state hw rest)
  ∧ (∀ r, roleOf key = some r →
      (VALID_STATE.contains value.state = false →
        check_if_rp_fan_pem_supported_and_in_valid_state hw ((key, value) :: rest) =
          .error (.notInValidState key))
      ∧ (∀ ls, VALID_STATE.contains value.state = true → hwListOf hw r = some ls →
          ls ≠ [] →
          ((ls.any (fun t => strContains value.type t) = true →
            check_if_rp_fan_pem_supported_and_in_valid_state hw ((key, value) :: rest) =
              check_if_rp_fan_pem_supported_and_in_valid_state hw rest)
          ∧ (ls.any (fun t => strContains value.type t) = false →
            check_if_rp_fan_pem_supported_and_in_valid_state hw ((key, value) :: rest) =
              .error (.unsupportedCard key))))) := by
  constructor
  · intro hnone
    cases hrp : rpMatch key with
    | true => simp [roleOf, hrp] at hnone
    | false =>
      cases hfan : fanMatch key with
      | true => simp [roleOf, hrp, hfan] at hnone
      | false =>
        cases hpem : pemMatch key with
        | true => simp [roleOf, hrp, hfan, hpem] at hnone
        | false =>
          simp [check_if_rp_fan_pem_supported_and_in_valid_state, gate_check_node,
                check_no_match _ _ _ _ hrp, check_no_match _ _ _ _ hfan,
                check_no_match _ _ _ _ hpem]
  · intro r hr
    cases hrp : rpMatch key with
    | true =>
      have hrr : Role.RP = r := by simpa [roleOf, hrp] using hr
      subst hrr
      constructor
      · intro hs
        simp [check_if_rp_fan_pem_supported_and_in_valid_state, gate_check_node,
              check_bad_state _ _ _ _ hrp hs]
      · intro ls hs hl hne
        simp only [hwListOf] at hl
        constructor
        · intro ha
          simp [check_if_rp_fan_pem_supported_and_in_valid_state, gate_check_node,
                hl, check_supported _ _ _ _ hrp hs hne ha]
        · intro ha
          simp [check_if_rp_fan_pem_supported_and_in_valid_state, gate_check_node,
                hl, check_unsupported _ _ _ _ hrp hs hne ha]
    | false =>
      cases hfan : fanMatch key with
      | true =>
        have hrr : Role.FAN = r := by simpa [roleOf, hrp, hfan] using hr
        subst hrr
        constructor
        · intro hs
          simp [check_if_rp_fan_pem_supported_and_in_valid_state, gate_check_node,
                check_no_match _ _ _ _ hrp, check_bad_state _ _ _ _ hfan hs]
        · intro ls hs hl hne
          simp only [hwListOf] at hl
          constructor
          · intro ha
            simp [check_if_rp_fan_pem_supported_and_in_valid_state, gate_check_node,
                  check_no_match _ _ _ _ hrp, hl,
                  check_supported _ _ _ _ hfan hs hne ha]
          · intro ha
            simp [check_if_rp_fan_pem_supported_and_in_valid_state, gate_check_node,
                  check_no_match _ _ _ _ hrp, hl,
                  check_unsupported _ _ _ _ hfan hs hne ha]
      | false =>
        cases hpem : pemMatch key with
        | true =>
          have hrr : Role.PEM = r := by simpa [roleOf, hrp, hfan, hpem] using hr
          subst hrr
          constructor
          · intro hs
            simp [check_if_rp_fan_pem_supported_and_in_valid_state, gate_check_node,
                  check_no_match _ _ _ _ hrp, check_no_match _ _ _ _ hfan,
                  check_bad_state _ _ _ _ hpem hs]
          · intro ls hs hl hne
            simp only [hwListOf] at hl
            constructor
            · intro ha
              simp [check_if_rp_fan_pem_supported_and_in_valid_state, gate_check_node,
                    check_no_match _ _ _ _ hrp, check_no_match _ _ _ _ hfan, hl,
                    check_supported _ _ _ _ hpem hs hne ha]
            · intro ha
              simp [check_if_rp_fan_pem_supported_and_in_valid_state, gate_check_node,
                    check_no_match _ _ _ _ hrp, check_no_match _ _ _ _ hfan, hl,
                    check_unsupported _ _ _ _ hpem hs hne ha]
        | false => simp [roleOf, hrp, hfan, hpem] at hr

/-- Claim C1 counterexample: the line-card pattern is not among the role
patterns the gate tries.  The node 0/1/CPU0 matches LINECARD_RE and its
state UNPOWERED is outside the valid-state set, yet the gate reports no
violation at all for an inventory holding only that node, even with a
full supported-hardware table. -/
theorem c1_hardware_gate_counterexample :
    linecardMatch "0/1/CPU0" = true
  ∧ VALID_STATE.contains "UNPOWERED" = false
  ∧ check_if_rp_fan_pem_supported_and_in_valid_state
      ⟨some ["RSP440"], some ["A9K-40GE"], some ["ASR-9006-FAN"], some ["A9K-3KW-AC"]⟩
      [("0/1/CPU0", ⟨"UNKNOWN-CARD", "UNPOWERED", "NPWR,NSHUT,MON"⟩)] = .ok true :=
  ⟨rfl, rfl, rfl⟩

/-- Claim C1 witness: the supported RSP node 0/RSP0/CPU0 in valid state
IOS XR RUN with a supported substring in its type passes the gate. -/
theorem c1_hardware_gate_witness :
    VALID_STATE.contains "IOS XR RUN" = true
  ∧ check_if_rp_fan_pem_supported_and_in_valid_state
      ⟨some ["RSP440"], some ["A9K-40GE"], none, none⟩
      [("0/RSP0/CPU0", ⟨"A9K-RSP440-SE(Active)", "IOS XR RUN", "PWR,NSHUT,MON"⟩)] =
      check_if_rp_fan_pem_supported_and_in_valid_state
        ⟨some ["RSP440"], some ["A9K-40GE"], none, none⟩ [] :=
  ⟨rfl,
    (((c1_hardware_gate ⟨some ["RSP440"], some ["A9K-40GE"], none, none⟩ "0/RSP0/CPU0"
        ⟨"A9K-RSP440-SE(Active)", "IOS XR RUN", "PWR,NSHUT,MON"⟩ []).2 Role.RP
        (by rfl)).2 ["RSP440"] rfl rfl (by decide)).1 (by decide)⟩

/-- Boolean success test for an Except value. -/
def exceptOk {ε α : Type} : Except ε α → Bool
  | .ok _ => true
  | .error _ => false

/-- Claim C2: for every file copied over FTP, TFTP or SFTP, after the
copy automaton reports success the coordinator sends a dir command on
the destination and raises a fatal error when the listing contains
No such file; and when the whole copy step succeeds, every file passed
both the automaton and the out-of-band existence re-verification, so
automaton success alone never yields overall success. -/
theorem c2_copy_postcheck :
    (∀ (repository : String) (run_fsm : String → Bool) (send : String → String)
       (src dest : String) (srcs dests : List String),
      run_fsm (copy_command repository src dest) = true →
      strContains (send ("dir " ++ dest)) "No such file" = true →
      copy_files_from_ftp_tftp_to_device repository run_fsm send
        (src :: srcs) (dest :: dests) = .error (.notOnDevice src dest))
  ∧ (∀ (username source_path : String) (vrf : Option String)
       (run_fsm : String → Bool) (send : String → String)
       (src dest : String) (srcs dests : List String),
      run_fsm (sftp_command username source_path vrf src dest) = true →
      strContains (send ("dir " ++ dest)) "No such file" = true →
      copy_files_from_sftp_to_device username source_path vrf run_fsm send
        (src :: srcs) (dest :: dests) = .error (.notOnDevice src dest))
  ∧ (∀ (repository : String) (run_fsm : String → Bool) (send : String → String)
       (srcs dests : List String),
      copy_files_from_ftp_tftp_to_device repository run_fsm send srcs dests = .ok () →
      ∀ p ∈ srcs.zip dests,
        run_fsm (copy_command repository p.1 p.2) = true ∧
        strContains (send ("dir " ++ p.2)) "No such file" = false)
  ∧ (∀ (username source_path : String) (vrf : Option String)
       (run_fsm : String → Bool) (send : String → String)
       (srcs dests : List String),
      copy_files_from_sftp_to_device username source_path vrf run_fsm send srcs dests =
        .ok () →
      ∀ p ∈ srcs.zip dests,
        run_fsm (sftp_command username source_path vrf p.1 p.2) = true ∧
        strContains (send ("dir " ++ p.2)) "No such file" = false) := by
  refine ⟨?_, ?_, ?_, ?_⟩
  · intro repository run_fsm send src dest srcs dests hfsm hdir
    simp [copy_files_from_ftp_tftp_to_device, hfsm, hdir]
  · intro username source_path vrf run_fsm send src dest srcs dests hfsm hdir
    simp [copy_files_from_sftp_to_device, hfsm, hdir]
  · intro repository run_fsm send srcs
    induction srcs with
    | nil => intro dests h p hp; simp at hp
    | cons s ss ih =>
      intro dests h p hp
      cases dests with
      | nil => simp [copy_files_from_ftp_tftp_to_device] at h
      | cons d ds =>
        rw [copy_files_from_ftp_tftp_to_device] at h
        by_cases hfsm : run_fsm (copy_command repository s d) = false
        · simp [hfsm] at h
        · simp only [hfsm, if_false] at h
          by_cases hdir : strContains (send ("dir " ++ d)) "No such file" = true
          · simp [hdir] at h
          · simp only [hdir, if_false] at h
            rcases List.mem_cons.mp (by simpa using hp) with hpe | hp2
            · subst hpe
              exact ⟨by simpa using hfsm, by simpa using hdir⟩
            · exact ih ds h p hp2
  · intro username source_path vrf run_fsm send srcs
    induction srcs with
    | nil => intro dests h p hp; simp at hp
    | cons s ss ih =>
      intro dests h p hp
      cases dests with
      | nil => simp [copy_files_from_sftp_to_device] at h
      | cons d ds =>
        rw [copy_files_from_sftp_to_device] at h
        by_cases hfsm : run_fsm (sftp_command username source_path vrf s d) = false
        · simp [hfsm] at h
        · simp only [hfsm, if_false] at h
          by_cases hdir : strContains (send ("dir " ++ d)) "No such file" = true
          · simp [hdir] at h
          · simp only [hdir, if_false] at h
            rcases List.mem_cons.mp (by simpa using hp) with hpe | hp2
            · subst hpe
              exact ⟨by simpa using hfsm, by simpa using hdir⟩
            · exact ih ds h p hp2

/-- Claim C2 witness: a listing containing No such file makes the copy
step fail even though the automaton oracle always reports success. -/
theorem c2_copy_postcheck_witness :
    strContains "dir output: No such file or directory" "No such file" = true
  ∧ copy_files_from_ftp_tftp_to_device "tftp://1.2.3.4/dir" (fun _ => true)
      (fun _ => "dir output: No such file or directory")
      ["a.tar"] ["harddiskb:/a.tar"] = .error (.notOnDevice "a.tar" "harddiskb:/a.tar") :=
  ⟨by decide,
    c2_copy_postcheck.1 "tftp://1.2.3.4/dir" (fun _ => true)
      (fun _ => "dir output: No such file or directory") "a.tar" "harddiskb:/a.tar" [] []
      rfl (by decide)⟩

/-- Every location with a success line passes the location loop. -/
theorem check_locations_ok (fpdtype fpd_log : String) (locs : List String)
    (h : ∀ loc ∈ locs, fpd_search fpdtype loc fpd_log = true) :
    check_locations fpdtype fpd_log locs = .ok () := by
  induction locs with
  | nil => rfl
  | cons l ls ih =>
    have hl := h l (by simp)
    simp [check_locations, hl]
    exact ih fun loc hm => h loc (by simp [hm])

/-- A location without a success line makes the location loop fail. -/
theorem check_locations_err (fpdtype fpd_log : String) (locs : List String)
    (loc : String) (hmem : loc ∈ locs)
    (hsearch : fpd_search fpdtype loc fpd_log = false) :
    exceptOk (check_locations fpdtype fpd_log locs) = false := by
  induction locs with
  | nil => simp at hmem
  | cons l ls ih =>
    rcases List.mem_cons.mp hmem with rfl | hmem2
    · simp [check_locations, hsearch, exceptOk]
    · by_cases hl : fpd_search fpdtype l fpd_log = false
      · simp [check_locations, hl, exceptOk]
      · simp only [check_locations, hl, if_false]
        exact ih hmem2

/-- Claim C3: after the forced FPD upgrade automaton runs for a
firmware subtype, the controller re-fetches the FPD log and requires,
for every location in that subtype need list, a matching success line;
a single missing pair makes the whole controller fail - even when every
other pair confirms - and the controller returns True exactly when every
automaton run succeeded and every pair is confirmed. -/
theorem c3_fpd_log_confirmation :
    (∀ (run_fsm : String → Bool) (send_log : String → String)
       (need : List (String × List String)) (fpdtype : String)
       (locs : List String) (loc : String),
      (fpdtype, locs) ∈ need → loc ∈ locs →
      fpd_search fpdtype loc (send_log fpdtype) = false →
      exceptOk (upgrade_all_fpds run_fsm send_log need) = false)
  ∧ (∀ (run_fsm : String → Bool) (send_log : String → String)
       (need : List (String × List String)),
      (∀ p ∈ need, run_fsm (fpd_upgrade_command p.1) = true ∧
        ∀ loc ∈ p.2, fpd_search p.1 loc (send_log p.1) = true) →
      upgrade_all_fpds run_fsm send_log need = .ok true) := by
  constructor
  · intro run_fsm send_log need
    induction need with
    | nil => intro fpdtype locs loc h; simp at h
    | cons p rest ih =>
      intro fpdtype locs loc hmem hloc hsearch
      obtain ⟨t0, l0⟩ := p
      by_cases hrun : run_fsm (fpd_upgrade_command t0) = false
      · simp [upgrade_all_fpds, hrun, exceptOk]
      · simp only [upgrade_all_fpds, hrun, if_false]
        rcases List.mem_cons.mp hmem with heq | hmem2
        · rw [Prod.mk.injEq] at heq
          obtain ⟨rfl, rfl⟩ := heq
          have hcl := check_locations_err fpdtype (send_log fpdtype) locs loc hloc hsearch
          cases hc : check_locations fpdtype (send_log fpdtype) locs with
          | error e => simp [exceptOk]
          | ok u => rw [hc] at hcl; simp [exceptOk] at hcl
        · cases hc : check_locations t0 (send_log t0) l0 with
          | error e => simp [exceptOk]
          | ok u => exact ih fpdtype locs loc hmem2 hloc hsearch
  · intro run_fsm send_log need h
    induction need with
    | nil => rfl
    | cons p rest ih =>
      obtain ⟨t0, l0⟩ := p
      have hp := h (t0, l0) (by simp)
      have hrun : run_fsm (fpd_upgrade_command t0) = true := hp.1
      have hcl := check_locations_ok t0 (send_log t0) l0 hp.2
      simp only [upgrade_all_fpds, hrun, hcl]
      exact ih fun q hq => h q (by simp [hq])

/-- Claim C3 witness: a need list with one subtype and one location, an
automaton oracle that always succeeds, and an empty log (so no success
line exists) make the whole controller fail. -/
theorem c3_fpd_log_confirmation_witness :
    fpd_search "cbc" "0/1/CPU0" "" = false
  ∧ exceptOk (upgrade_all_fpds (fun _ => true) (fun _ => "")
      [("cbc", ["0/1/CPU0"])]) = false :=
  ⟨by decide,
    c3_fpd_log_confirmation.1 (fun _ => true) (fun _ => "")
      [("cbc", ["0/1/CPU0"])] "cbc" ["0/1/CPU0"] "0/1/CPU0"
      (by simp) (by simp) (by decide)⟩

/-- Members of an updated association list are the new binding or old
members. -/
theorem mem_updateAssoc {β : Type} (inv : List (String × β)) (k : String) (v : β)
    (p : String × β) (hp : p ∈ updateAssoc inv k v) : p = (k, v) ∨ p ∈ inv := by
  induction inv with
  | nil => simpa [updateAssoc] using hp
  | cons q rest ih =>
    obtain ⟨k0, v0⟩ := q
    by_cases hk : k0 = k
    · subst hk
      simp only [updateAssoc, if_pos rfl] at hp
      rcases List.mem_cons.mp hp with rfl | hp2
      · exact Or.inl rfl
      · exact Or.inr (List.mem_cons.mpr (Or.inr hp2))
    · simp only [updateAssoc, if_neg hk] at hp
      rcases List.mem_cons.mp hp with rfl | hp2
      · exact Or.inr (List.mem_cons.mpr (Or.inl rfl))
      · rcases ih hp2 with h | h
        · exact Or.inl h
        · exact Or.inr (List.mem_cons.mpr (Or.inr h))

/-- A line parsed to an entry had its first column checked for the
CPU-instance suffix, and the entry key is that first column. -/
theorem parse_line_entry_cpu (raw : List Char) (node : String) (e : Entry)
    (h : parse_platform_line "ASR9K" raw = .entry node e) :
    endsWithCpuNum node.data = true := by
  unfold parse_platform_line at h
  cases hstrip : pyStrip raw with
  | nil => rw [hstrip] at h; simp at h
  | cons c cs =>
    simp only [hstrip] at h
    by_cases hd : pyIsDigit c = true
    · rw [if_pos hd] at h
      by_cases hcpu : endsWithCpuNum (splitWs2 (c :: cs)).headI = true
      · rw [if_neg (by simp [hcpu]), if_pos trivial] at h
        split at h
        · rename_i n t s cfg heq
          injection h with h1 h2
          rw [← h1]
          rw [heq] at hcpu
          simpa using hcpu
        · simp at h
      · have hcpu2 : endsWithCpuNum (splitWs2 (c :: cs)).headI = false := by
          revert hcpu; cases endsWithCpuNum (splitWs2 (c :: cs)).headI <;> simp
        rw [if_pos (by simp [hcpu2])] at h
        simp at h
    · rw [if_neg hd] at h
      simp at h

/-- Every key of an ASR9K parse result carries the CPU-instance suffix:
lines whose first column does not end in one are discarded. -/
theorem parse_asr9k_keys_cpu (lines : List (List Char)) :
    ∀ (inv inv2 : List (String × Entry)),
      parse_show_platform_go "ASR9K" lines inv = .ok (some inv2) →
      (∀ p ∈ inv, endsWithCpuNum p.1.data = true) →
      ∀ p ∈ inv2, endsWithCpuNum p.1.data = true := by
  induction lines with
  | nil =>
    intro inv inv2 h hinv
    simp only [parse_show_platform_go, Except.ok.injEq, Option.some.injEq] at h
    exact h ▸ hinv
  | cons line rest ih =>
    intro inv inv2 h hinv
    simp only [parse_show_platform_go] at h
    cases hline : parse_platform_line "ASR9K" line with
    | skip =>
      rw [hline] at h
      exact ih inv inv2 h hinv
    | entry node e =>
      rw [hline] at h
      refine ih _ inv2 h ?_
      intro p hp
      rcases mem_updateAssoc _ _ _ p hp with rfl | hp2
      · exact parse_line_entry_cpu line node e hline
      · exact hinv p hp2
    | unsupportedFamily => rw [hline] at h; simp at h
    | arityError => rw [hline] at h; simp at h

/-- Claim C7: the inventory parser keeps exactly the non-blank lines
whose first non-whitespace character is a digit, splits a kept line into
columns on runs of two-or-more whitespace characters, discards kept
lines whose first column does not end in a CPU-instance suffix, assigns
the remaining columns positionally, and parses the scenario line from
the specification to the expected node entry; consequently every key of
a parsed ASR9K inventory ends in a CPU-instance suffix. -/
theorem c7_inventory_parse :
    parse_show_platform "ASR9K"
        "0/RSP0/CPU0     A9K-RSP440-SE(Active)     IOS XR RUN       PWR,NSHUT,MON" =
      .ok (some [("0/RSP0/CPU0",
        ⟨"A9K-RSP440-SE(Active)", "IOS XR RUN", "PWR,NSHUT,MON"⟩)])
  ∧ (∀ (family : String) (raw : List Char), pyStrip raw = [] →
      parse_platform_line family raw = .skip)
  ∧ (∀ (family : String) (raw : List Char) (c : Char) (cs : List Char),
      pyStrip raw = c :: cs → pyIsDigit c = false →
      parse_platform_line family raw = .skip)
  ∧ (∀ (family : String) (raw : List Char) (c : Char) (cs : List Char),
      pyStrip raw = c :: cs → pyIsDigit c = true →
      endsWithCpuNum (splitWs2 (c :: cs)).headI = false →
      parse_platform_line family raw = .skip)
  ∧ (∀ (raw : List Char) (c : Char) (cs n t s cfg : List Char),
      pyStrip raw = c :: cs → pyIsDigit c = true →
      splitWs2 (c :: cs) = [n, t, s, cfg] → endsWithCpuNum n = true →
      parse_platform_line "ASR9K" raw =
        .entry (String.mk n) ⟨String.mk t, String.mk s, String.mk cfg⟩)
  ∧ (∀ (output : String) (inv : List (String × Entry)),
      parse_show_platform "ASR9K" output = .ok (some inv) →
      ∀ p ∈ inv, endsWithCpuNum p.1.data = true) := by
  refine ⟨rfl, ?_, ?_, ?_, ?_, ?_⟩
  · intro family raw h
    simp [parse_platform_line, h]
  · intro family raw c cs h hd
    simp [parse_platform_line, h, hd]
  · intro family raw c cs h hd hcpu
    simp [parse_platform_line, h, hd, hcpu]
  · intro raw c cs n t s cfg h hd hsp hcpu
    have hh : (splitWs2 (c :: cs)).headI = n := by rw [hsp]; rfl
    simp [parse_platform_line, h, hd, hsp, hh, hcpu]
  · intro output inv h
    exact parse_asr9k_keys_cpu (pySplitNl output.data) [] inv h (by simp)

/-- Claim C7 witness: a whitespace-only line is blank after stripping
and is skipped. -/
theorem c7_inventory_parse_witness :
    pyStrip "   ".data = []
  ∧ parse_platform_line "ASR9K" "   ".data = .skip :=
  ⟨by decide, c7_inventory_parse.2.1 "ASR9K" "   ".data (by decide)⟩

/-- Claim C8 (code bug evaluation): for an unsupported platform family
the parser itself warns and returns no inventory rather than raising,
but the caller then crashes with AttributeError on the missing inventory
instead of treating it as no-inventory-available; and for a recognized
family a kept data line with the wrong field count fails loudly with
ValueError instead of silently mis-assigning fields. -/
theorem c8_parse_failure_behavior :
    parse_show_platform "NCS6K" "0/0/CPU0   NCS-TYPE   IOS XR RUN   PWR" = .ok none
  ∧ node_status_run "NCS6K" "0/0/CPU0   NCS-TYPE   IOS XR RUN   PWR" =
      .error .attributeError
  ∧ parse_show_platform "ASR9K"
      "0/0/CPU0  MSC-X  40-10GbE  IOS XR RUN  PWR,NSHUT,MON" = .error .valueError :=
  ⟨rfl, rfl, rfl⟩

/-- Claim C5 (code bug evaluation): the specification says substring
containment of a supported card marks a node type supported in both
selection paths.  In pre_migrate.py it is substring containment, but in
migration_lib.py the stored node type is a one-element tuple because of
a trailing comma, so the membership test is string equality: with
supported substring RSP440 the parsed node of type A9K-RSP440-SE is NOT
selected, while the full equal string is; the pre_migrate selection at
the same configuration does select the node by substring. -/
theorem c5_supported_card_tuple_bug :
    parse_exr_admin_show_platform
        "Node      Type\n0/RSP0    A9K-RSP440-SE           OPERATIONAL" =
      [("0/RSP0", ["A9K-RSP440-SE"])]
  ∧ strContains "A9K-RSP440-SE" "RSP440" = true
  ∧ get_all_supported_nodes
      "Node      Type\n0/RSP0    A9K-RSP440-SE           OPERATIONAL" ["RSP440"] = []
  ∧ get_all_supported_nodes
      "Node      Type\n0/RSP0    A9K-RSP440-SE           OPERATIONAL"
      ["A9K-RSP440-SE"] = ["0/RSP0"]
  ∧ get_supported_iosxr_run_nodes ⟨some ["RSP440"], some ["A9K-40GE"], none, none⟩
      [("0/RSP0/CPU0", ⟨"A9K-RSP440-SE(Active)", "IOS XR RUN", "PWR,NSHUT,MON"⟩)] =
      .ok ["0/RSP0/CPU0"] :=
  ⟨rfl, rfl, rfl, rfl, rfl⟩

/-- No CPU node in an invalid state means the break never fires. -/
theorem node_status_bad_node_none (inv : List (String × Entry))
    (h : ∀ p ∈ inv, strContains p.1 "CPU" = true →
      upgrade_valid_state.contains p.2.state = true) :
    node_status_bad_node inv = none := by
  induction inv with
  | nil => rfl
  | cons p rest ih =>
    cases hcpu : strContains p.1 "CPU" with
    | false => simp only [node_status_bad_node, hcpu, Bool.false_and, if_false]
               exact ih fun q hq => h q (by simp [hq])
    | true =>
      have hs := h p (by simp) hcpu
      simp only [node_status_bad_node, hcpu, hs, Bool.not_true, Bool.and_false, if_false]
      exact ih fun q hq => h q (by simp [hq])

/-- A CPU node in an invalid state makes the break fire on some node. -/
theorem node_status_bad_node_some (inv : List (String × Entry))
    (p : String × Entry) (hp : p ∈ inv) (hcpu : strContains p.1 "CPU" = true)
    (hbad : upgrade_valid_state.contains p.2.state = false) :
    ∃ q, node_status_bad_node inv = some q := by
  induction inv with
  | nil => simp at hp
  | cons r rest ih =>
    by_cases hr : strContains r.1 "CPU" && !(upgrade_valid_state.contains r.2.state)
    · exact ⟨r, by simp only [node_status_bad_node, hr, if_true]⟩
    · rcases List.mem_cons.mp hp with rfl | hp2
      · rw [hcpu, hbad] at hr; simp at hr
      · have hrr : (strContains r.1 "CPU" && !(upgrade_valid_state.contains r.2.state)) = false := by
          revert hr; cases (strContains r.1 "CPU" && !(upgrade_valid_state.contains r.2.state)) <;> simp
        simp only [node_status_bad_node, hrr, if_false]
        exact ih hp2

/-- Claim C10: the node status check state-checks only inventory nodes
whose key contains CPU - fan and power rows never cause failure; its
accepted state set is exactly the migration VALID_STATE plus the five
extra states, each of which is outside VALID_STATE (strictly broader);
when every CPU node is in an accepted state the parsed inventory is
saved under the name inventory and the check succeeds, and when some
CPU node is not, the check fails. -/
theorem c10_node_status_check :
    (∀ s : String, s ∈ upgrade_valid_state ↔ s ∈ VALID_STATE ∨ s ∈ upgrade_extra_states)
  ∧ (∀ s : String, s ∈ upgrade_extra_states → s ∉ VALID_STATE)
  ∧ (∀ inv : List (String × Entry),
      (∀ p ∈ inv, strContains p.1 "CPU" = true →
        upgrade_valid_state.contains p.2.state = true) →
      node_status_check inv = .ok ("inventory", inv))
  ∧ (∀ (inv : List (String × Entry)) (p : String × Entry),
      p ∈ inv → strContains p.1 "CPU" = true →
      upgrade_valid_state.contains p.2.state = false →
      exceptOk (node_status_check inv) = false) := by
  refine ⟨?_, ?_, ?_, ?_⟩
  · intro s
    simp [upgrade_valid_state, VALID_STATE, upgrade_extra_states]
    tauto
  · intro s hs
    fin_cases hs <;> decide
  · intro inv h
    simp [node_status_check, node_status_bad_node_none inv h]
  · intro inv p hp hcpu hbad
    obtain ⟨q, hq⟩ := node_status_bad_node_some inv p hp hcpu hbad
    simp [node_status_check, hq, exceptOk]

/-- Claim C10 witness: a fan row in a bizarre state never fails the
check, and with the one CPU node in a valid state the inventory is saved
under the name inventory. -/
theorem c10_node_status_check_witness :
    node_status_check
      [("0/FT0/SP", ⟨"ASR-9006-FAN", "SOME-ODD-STATE", "PWR"⟩),
       ("0/RSP0/CPU0", ⟨"A9K-RSP440-SE(Active)", "IOS XR RUN", "PWR,NSHUT,MON"⟩)] =
      .ok ("inventory",
        [("0/FT0/SP", ⟨"ASR-9006-FAN", "SOME-ODD-STATE", "PWR"⟩),
         ("0/RSP0/CPU0", ⟨"A9K-RSP440-SE(Active)", "IOS XR RUN", "PWR,NSHUT,MON"⟩)]) :=
  c10_node_status_check.2.2.1
    [("0/FT0/SP", ⟨"ASR-9006-FAN", "SOME-ODD-STATE", "PWR"⟩),
     ("0/RSP0/CPU0", ⟨"A9K-RSP440-SE(Active)", "IOS XR RUN", "PWR,NSHUT,MON"⟩)]
    (by decide)

/-- Enough fuel is inert: when the deadline would be reached within the
given fuel, adding more fuel does not change the loop result. -/
theorem wait_loop_fuel_stable (nodes : List String) (outputs : Nat → String) :
    ∀ (fuel tw i : Nat), WFB_TIMEOUT ≤ WFB_POLL * fuel + tw →
      wait_for_final_band_loop nodes outputs fuel i tw =
        wait_for_final_band_loop nodes outputs (fuel + 1) i tw := by
  have e1 : WFB_TIMEOUT = 1080 := rfl
  have e2 : WFB_POLL = 20 := rfl
  intro fuel
  induction fuel with
  | zero =>
    intro tw i h
    rw [e1, e2] at h
    have hbreak : WFB_TIMEOUT ≤ tw + WFB_POLL := by rw [e1, e2]; omega
    rw [wait_for_final_band_loop.eq_1, wait_for_final_band_loop.eq_2, if_pos hbreak]
  | succ fuel ih =>
    intro tw i h
    rw [e1, e2] at h
    rw [wait_for_final_band_loop.eq_2, wait_for_final_band_loop.eq_2]
    by_cases hbreak : WFB_TIMEOUT ≤ tw + WFB_POLL
    · rw [if_pos hbreak, if_pos hbreak]
    · rw [if_neg hbreak, if_neg hbreak]
      cases hgood : all_nodes_present nodes (outputs i) && check_sw_status (outputs i) with
      | true => rw [if_pos hgood, if_pos hgood]
      | false =>
        rw [if_neg (by simp [hgood]), if_neg (by simp [hgood])]
        simp only []
        rw [ih (tw + WFB_POLL) (i + 1) (by rw [e1, e2]; omega)]

/-- Per-fuel bound for the wait loop: starting from any accounted
elapsed time not past the deadline, the loop sleeps at most up to the
deadline and takes every sample strictly before it. -/
theorem wait_loop_bounds (nodes : List String) (outputs : Nat → String) :
    ∀ (fuel tw i : Nat), tw ≤ WFB_TIMEOUT →
      ((wait_for_final_band_loop nodes outputs fuel i tw).2.1 + tw ≤ WFB_TIMEOUT ∧
       ∀ t ∈ (wait_for_final_band_loop nodes outputs fuel i tw).2.2,
         tw < t ∧ t < WFB_TIMEOUT) := by
  have e1 : WFB_TIMEOUT = 1080 := rfl
  have e2 : WFB_POLL = 20 := rfl
  intro fuel
  induction fuel with
  | zero =>
    intro tw i htw
    rw [wait_for_final_band_loop.eq_1]
    exact ⟨by simpa using htw, by simp⟩
  | succ fuel ih =>
    intro tw i htw
    rw [wait_for_final_band_loop.eq_2]
    by_cases hbreak : WFB_TIMEOUT ≤ tw + WFB_POLL
    · rw [if_pos hbreak]
      exact ⟨by simpa using htw, by simp⟩
    · rw [if_neg hbreak]
      have hlt : tw + WFB_POLL < WFB_TIMEOUT := by omega
      cases hgood : all_nodes_present nodes (outputs i) && check_sw_status (outputs i) with
      | true =>
        rw [if_pos hgood]
        refine ⟨?_, ?_⟩
        · rw [e1, e2] at *; simp; omega
        · intro t ht
          simp only [List.mem_singleton] at ht
          subst ht
          exact ⟨by rw [e2]; omega, hlt⟩
      | false =>
        rw [if_neg (by simp [hgood])]
        simp only []
        have hrec := ih (tw + WFB_POLL) (i + 1) (by omega)
        refine ⟨?_, ?_⟩
        · have := hrec.1
          rw [e1, e2] at *
          omega
        · intro t ht
          simp only [List.mem_cons] at ht
          rcases ht with rfl | ht2
          · exact ⟨by rw [e2]; omega, hlt⟩
          · have := hrec.2 t ht2
            exact ⟨by omega, this.2⟩

/-- Claim C9: the convergence poller checks elapsed time against the
timeout before sleeping, so on every run the total accounted sleep never
exceeds the timeout (total elapsed wait is at most the timeout plus the
one sample possibly in flight at the boundary), and every sample is
taken at an accounted elapsed time strictly below the deadline - the
last sample is never started past the boundary. -/
theorem c9_convergence_poller (nodes : List String) (outputs : Nat → String) :
    (wait_for_final_band nodes outputs).2.1 ≤ WFB_TIMEOUT
  ∧ ∀ t ∈ (wait_for_final_band nodes outputs).2.2, 0 < t ∧ t < WFB_TIMEOUT := by
  have h := wait_loop_bounds nodes outputs 54 0 0 (by simp)
  unfold wait_for_final_band
  refine ⟨by have := h.1; omega, ?_⟩
  intro t ht
  have := h.2 t ht
  exact ⟨by omega, this.2⟩

/-- Claim C9 witness: with no expected nodes and an output whose only
line is non-numeric, the loop succeeds at the first sample: it slept 20
seconds, that one sample was taken at accounted time 20, strictly before
the 1080 second deadline. -/
theorem c9_convergence_poller_witness :
    (20 : Nat) ∈ (wait_for_final_band [] (fun _ => "x")).2.2
  ∧ 0 < 20 ∧ 20 < WFB_TIMEOUT := by
  have hmem : (20 : Nat) ∈ (wait_for_final_band [] (fun _ => "x")).2.2 := by decide
  exact ⟨hmem, (c9_convergence_poller [] (fun _ => "x")).2 20 hmem⟩

/-- Invariant of the SFTP copy automaton run: with the saved session
descriptor present and the transcript sink attached at start, the sink
is attached in state 0, detached in the password-authenticated states 1
and 2, attached again in every success outcome and in every
action-driven failure outcome. -/
theorem sftp_fsm_invariant (tmo fd : Nat) :
    ∀ (events : List SftpEvent) (st : Int) (c : SftpCtx),
      c.session_fd = some fd →
      (st = 0 → c.logfile_read = some fd) →
      ((st = 1 ∨ st = 2) → c.logfile_read = none) →
      (st = 0 ∨ st = 1 ∨ st = 2) →
      ((∀ (st2 : Int) (c2 : SftpCtx),
          fsmRun (sftp_transitions tmo) st c events = .running st2 c2 →
          c2.session_fd = some fd ∧ (st2 = 0 → c2.logfile_read = some fd) ∧
          ((st2 = 1 ∨ st2 = 2) → c2.logfile_read = none) ∧
          (st2 = 0 ∨ st2 = 1 ∨ st2 = 2))
       ∧ (∀ c2 : SftpCtx, fsmRun (sftp_transitions tmo) st c events = .succeeded c2 →
           c2.logfile_read = some fd)
       ∧ (∀ c2 : SftpCtx, fsmRun (sftp_transitions tmo) st c events = .failed c2 →
           c2.logfile_read = some fd)) := by
  intro events
  induction events with
  | nil =>
    intro st c hsess h0 h12 hst
    refine ⟨?_, ?_, ?_⟩
    · intro st2 c2 h
      simp only [fsmRun, FsmOutcome.running.injEq] at h
      obtain ⟨rfl, rfl⟩ := h
      exact ⟨hsess, h0, h12, hst⟩
    · intro c2 h
      simp only [fsmRun] at h
      exact FsmOutcome.noConfusion h
    · intro c2 h
      simp only [fsmRun] at h
      exact FsmOutcome.noConfusion h
  | cons e es ih =>
    intro st c hsess h0 h12 hst
    rcases hst with rfl | rfl | rfl
    · -- state 0: the sink is attached
      have hl : c.logfile_read = some fd := h0 rfl
      cases e with
      | PROMPT =>
        have hrun : fsmRun (sftp_transitions tmo) 0 c (SftpEvent.PROMPT :: es) =
            .mismatch 0 c := by
          simp [fsmRun, fsmStep, findTransition, sftp_transitions]
        rw [hrun]
        refine ⟨fun _ _ h => absurd h (by simp), fun _ h => absurd h (by simp),
          fun _ h => absurd h (by simp)⟩
      | PASSWORD =>
        have hrun : fsmRun (sftp_transitions tmo) 0 c (SftpEvent.PASSWORD :: es) =
            fsmRun (sftp_transitions tmo) 1
              { c with sent := c.password :: c.sent, logfile_read := none } es := by
          simp [fsmRun, fsmStep, findTransition, sftp_transitions, send_password, hl]
        rw [hrun]
        exact ih 1 _ (by simp [hsess]) (by simp) (by simp) (by simp)
      | CONFIRM_OVERWRITE =>
        have hrun : fsmRun (sftp_transitions tmo) 0 c (SftpEvent.CONFIRM_OVERWRITE :: es) =
            .mismatch 0 c := by
          simp [fsmRun, fsmStep, findTransition, sftp_transitions]
        rw [hrun]
        refine ⟨fun _ _ h => absurd h (by simp), fun _ h => absurd h (by simp),
          fun _ h => absurd h (by simp)⟩
      | COPIED =>
        have hrun : fsmRun (sftp_transitions tmo) 0 c (SftpEvent.COPIED :: es) =
            .mismatch 0 c := by
          simp [fsmRun, fsmStep, findTransition, sftp_transitions]
        rw [hrun]
        refine ⟨fun _ _ h => absurd h (by simp), fun _ h => absurd h (by simp),
          fun _ h => absurd h (by simp)⟩
      | TIMEOUT =>
        have hrun : fsmRun (sftp_transitions tmo) 0 c (SftpEvent.TIMEOUT :: es) =
            .failed { c with message := some "Error copying file." } := by
          simp [fsmRun, fsmStep, findTransition, sftp_transitions, sftp_error, hl]
        rw [hrun]
        refine ⟨fun _ _ h => absurd h (by simp), fun _ h => absurd h (by simp), ?_⟩
        intro c2 h
        injection h with h2
        rw [← h2]
        simpa using hl
      | NO_SUCH_FILE =>
        have hrun : fsmRun (sftp_transitions tmo) 0 c (SftpEvent.NO_SUCH_FILE :: es) =
            .failed { c with message := some "Error copying file." } := by
          simp [fsmRun, fsmStep, findTransition, sftp_transitions, sftp_error, hl]
        rw [hrun]
        refine ⟨fun _ _ h => absurd h (by simp), fun _ h => absurd h (by simp), ?_⟩
        intro c2 h
        injection h with h2
        rw [← h2]
        simpa using hl
      | DOWNLOAD_ABORTED =>
        have hrun : fsmRun (sftp_transitions tmo) 0 c (SftpEvent.DOWNLOAD_ABORTED :: es) =
            .failed { c with message := some "Error copying file." } := by
          simp [fsmRun, fsmStep, findTransition, sftp_transitions, sftp_error, hl]
        rw [hrun]
        refine ⟨fun _ _ h => absurd h (by simp), fun _ h => absurd h (by simp), ?_⟩
        intro c2 h
        injection h with h2
        rw [← h2]
        simpa using hl
    · -- state 1: the sink is detached
      have hl : c.logfile_read = none := h12 (Or.inl rfl)
      cases e with
      | PROMPT =>
        have hrun : fsmRun (sftp_transitions tmo) 1 c (SftpEvent.PROMPT :: es) =
            .succeeded { c with logfile_read := some fd } := by
          simp [fsmRun, fsmStep, findTransition, sftp_transitions, reinstall_logfile,
            hsess, hl]
        rw [hrun]
        refine ⟨fun _ _ h => absurd h (by simp), ?_, fun _ h => absurd h (by simp)⟩
        intro c2 h
        injection h with h2
        rw [← h2]
      | PASSWORD =>
        have hrun : fsmRun (sftp_transitions tmo) 1 c (SftpEvent.PASSWORD :: es) =
            .mismatch 1 c := by
          simp [fsmRun, fsmStep, findTransition, sftp_transitions]
        rw [hrun]
        refine ⟨fun _ _ h => absurd h (by simp), fun _ h => absurd h (by simp),
          fun _ h => absurd h (by simp)⟩
      | CONFIRM_OVERWRITE =>
        have hrun : fsmRun (sftp_transitions tmo) 1 c (SftpEvent.CONFIRM_OVERWRITE :: es) =
            fsmRun (sftp_transitions tmo) 2 { c with sent := "yes" :: c.sent } es := by
          simp [fsmRun, fsmStep, findTransition, sftp_transitions, send_yes, hl]
        rw [hrun]
        exact ih 2 _ (by simp [hsess]) (by simp) (by simp [hl]) (by simp)
      | COPIED =>
        have hrun : fsmRun (sftp_transitions tmo) 1 c (SftpEvent.COPIED :: es) =
            .succeeded { c with logfile_read := some fd } := by
          simp [fsmRun, fsmStep, findTransition, sftp_transitions, reinstall_logfile,
            hsess, hl]
        rw [hrun]
        refine ⟨fun _ _ h => absurd h (by simp), ?_, fun _ h => absurd h (by simp)⟩
        intro c2 h
        injection h with h2
        rw [← h2]
      | TIMEOUT =>
        have hrun : fsmRun (sftp_transitions tmo) 1 c (SftpEvent.TIMEOUT :: es) =
            .failed { c with logfile_read := some fd, message := some "Error copying file." } := by
          simp [fsmRun, fsmStep, findTransition, sftp_transitions, sftp_error, hsess, hl]
        rw [hrun]
        refine ⟨fun _ _ h => absurd h (by simp), fun _ h => absurd h (by simp), ?_⟩
        intro c2 h
        injection h with h2
        rw [← h2]
      | NO_SUCH_FILE =>
        have hrun : fsmRun (sftp_transitions tmo) 1 c (SftpEvent.NO_SUCH_FILE :: es) =
            .failed { c with logfile_read := some fd, message := some "Error copying file." } := by
          simp [fsmRun, fsmStep, findTransition, sftp_transitions, sftp_error, hsess, hl]
        rw [hrun]
        refine ⟨fun _ _ h => absurd h (by simp), fun _ h => absurd h (by simp), ?_⟩
        intro c2 h
        injection h with h2
        rw [← h2]
      | DOWNLOAD_ABORTED =>
        have hrun : fsmRun (sftp_transitions tmo) 1 c (SftpEvent.DOWNLOAD_ABORTED :: es) =
            .failed { c with logfile_read := some fd, message := some "Error copying file." } := by
          simp [fsmRun, fsmStep, findTransition, sftp_transitions, sftp_error, hsess, hl]
        rw [hrun]
        refine ⟨fun _ _ h => absurd h (by simp), fun _ h => absurd h (by simp), ?_⟩
        intro c2 h
        injection h with h2
        rw [← h2]
    · -- state 2: the sink is detached
      have hl : c.logfile_read = none := h12 (Or.inr rfl)
      cases e with
      | PROMPT =>
        have hrun : fsmRun (sftp_transitions tmo) 2 c (SftpEvent.PROMPT :: es) =
            .succeeded { c with logfile_read := some fd } := by
          simp [fsmRun, fsmStep, findTransition, sftp_transitions, reinstall_logfile,
            hsess, hl]
        rw [hrun]
        refine ⟨fun _ _ h => absurd h (by simp), ?_, fun _ h => absurd h (by simp)⟩
        intro c2 h
        injection h with h2
        rw [← h2]
      | PASSWORD =>
        have hrun : fsmRun (sftp_transitions tmo) 2 c (SftpEvent.PASSWORD :: es) =
            .mismatch 2 c := by
          simp [fsmRun, fsmStep, findTransition, sftp_transitions]
        rw [hrun]
        refine ⟨fun _ _ h => absurd h (by simp), fun _ h => absurd h (by simp),
          fun _ h => absurd h (by simp)⟩
      | CONFIRM_OVERWRITE =>
        have hrun : fsmRun (sftp_transitions tmo) 2 c (SftpEvent.CONFIRM_OVERWRITE :: es) =
            .mismatch 2 c := by
          simp [fsmRun, fsmStep, findTransition, sftp_transitions]
        rw [hrun]
        refine ⟨fun _ _ h => absurd h (by simp), fun _ h => absurd h (by simp),
          fun _ h => absurd h (by simp)⟩
      | COPIED =>
        have hrun : fsmRun (sftp_transitions tmo) 2 c (SftpEvent.COPIED :: es) =
            .succeeded { c with logfile_read := some fd } := by
          simp [fsmRun, fsmStep, findTransition, sftp_transitions, reinstall_logfile,
            hsess, hl]
        rw [hrun]
        refine ⟨fun _ _ h => absurd h (by simp), ?_, fun _ h => absurd h (by simp)⟩
        intro c2 h
        injection h with h2
        rw [← h2]
      | TIMEOUT =>
        have hrun : fsmRun (sftp_transitions tmo) 2 c (SftpEvent.TIMEOUT :: es) =
            .failed { c with logfile_read := some fd, message := some "Error copying file." } := by
          simp [fsmRun, fsmStep, findTransition, sftp_transitions, sftp_error, hsess, hl]
        rw [hrun]
        refine ⟨fun _ _ h => absurd h (by simp), fun _ h => absurd h (by simp), ?_⟩
        intro c2 h
        injection h with h2
        rw [← h2]
      | NO_SUCH_FILE =>
        have hrun : fsmRun (sftp_transitions tmo) 2 c (SftpEvent.NO_SUCH_FILE :: es) =
            .failed { c with logfile_read := some fd, message := some "Error copying file." } := by
          simp [fsmRun, fsmStep, findTransition, sftp_transitions, sftp_error, hsess, hl]
        rw [hrun]
        refine ⟨fun _ _ h => absurd h (by simp), fun _ h => absurd h (by simp), ?_⟩
        intro c2 h
        injection h with h2
        rw [← h2]
      | DOWNLOAD_ABORTED =>
        have hrun : fsmRun (sftp_transitions tmo) 2 c (SftpEvent.DOWNLOAD_ABORTED :: es) =
            .failed { c with logfile_read := some fd, message := some "Error copying file." } := by
          simp [fsmRun, fsmStep, findTransition, sftp_transitions, sftp_error, hsess, hl]
        rw [hrun]
        refine ⟨fun _ _ h => absurd h (by simp), fun _ h => absurd h (by simp), ?_⟩
        intro c2 h
        injection h with h2
        rw [← h2]

/-- Claim C6: during an SFTP copy the transcript sink is detached by the
password exchange before any further session output is read, stays
detached through the authenticated states, and is reattached by the
time the automaton ends on every listed exit path - completion banner
(COPIED), returned prompt, error marker (NO_SUCH_FILE), download abort,
or timeout: every success outcome and every action-driven failure
outcome of the run carries the reattached sink, so credentials echoed
while detached are never persisted and the sink is never left detached
after the exchange completes. -/
theorem c6_sftp_logfile (tmo fd : Nat) (c0 : SftpCtx) (events : List SftpEvent)
    (hsess : c0.session_fd = some fd) (hatt : c0.logfile_read = some fd) :
    (∀ (st2 : Int) (c2 : SftpCtx),
        fsmStep (sftp_transitions tmo) 0 c0 .PASSWORD = .running st2 c2 →
        st2 = 1 ∧ c2.logfile_read = none ∧ c2.sent = c0.password :: c0.sent)
  ∧ (∀ (st2 : Int) (c2 : SftpCtx),
        fsmRun (sftp_transitions tmo) 0 c0 events = .running st2 c2 →
        ((st2 = 1 ∨ st2 = 2) → c2.logfile_read = none))
  ∧ (∀ c2 : SftpCtx, fsmRun (sftp_transitions tmo) 0 c0 events = .succeeded c2 →
      c2.logfile_read = some fd)
  ∧ (∀ c2 : SftpCtx, fsmRun (sftp_transitions tmo) 0 c0 events = .failed c2 →
      c2.logfile_read = some fd) := by
  have hinv := sftp_fsm_invariant tmo fd events 0 c0 hsess (fun _ => hatt)
    (by intro h; rcases h with h | h <;> exact absurd h (by decide)) (Or.inl rfl)
  refine ⟨?_, ?_, hinv.2.1, hinv.2.2⟩
  · intro st2 c2 h
    have hstep : fsmStep (sftp_transitions tmo) 0 c0 .PASSWORD =
        .running 1 { c0 with sent := c0.password :: c0.sent, logfile_read := none } := by
      simp [fsmStep, findTransition, sftp_transitions, send_password, hatt]
    rw [hstep] at h
    injection h with h1 h2
    exact ⟨h1.symm, by simp [← h2], by simp [← h2]⟩
  · intro st2 c2 h
    exact (hinv.1 st2 c2 h).2.2.1

/-- Claim C6 witness: a run through password prompt, overwrite
confirmation and completion banner succeeds with the transcript sink
reattached. -/
theorem c6_sftp_logfile_witness :
    (fsmRun (sftp_transitions 600) 0
        ⟨some 1, some 1, [], "secret", none⟩
        [.PASSWORD, .CONFIRM_OVERWRITE, .COPIED] =
      .succeeded ⟨some 1, some 1, ["yes", "secret"], "secret", none⟩)
  ∧ (⟨some 1, some 1, ["yes", "secret"], "secret", none⟩ : SftpCtx).logfile_read = some 1 :=
  ⟨rfl,
    (c6_sftp_logfile 600 1 ⟨some 1, some 1, [], "secret", none⟩
        [.PASSWORD, .CONFIRM_OVERWRITE, .COPIED] rfl rfl).2.2.1
      ⟨some 1, some 1, ["yes", "secret"], "secret", none⟩ rfl⟩

/-- ASCII digit characters have code points between 48 and 57. -/
theorem pyIsDigit_bounds {c : Char} (h : pyIsDigit c = true) :
    48 ≤ c.toNat ∧ c.toNat ≤ 57 := by
  simpa [pyIsDigit] using h

/-- A version-pattern match is a digit, a dot, a digit, a dot and a
digit. -/
theorem versionAt_shape {s v : List Char} (h : versionAt s = some v) :
    ∃ x y z, v = [x, '.', y, '.', z] ∧ pyIsDigit x = true ∧ pyIsDigit y = true ∧
      pyIsDigit z = true := by
  match s with
  | [] => simp [versionAt] at h
  | [a] => simp [versionAt] at h
  | [a, b] => simp [versionAt] at h
  | [a, b, c] => simp [versionAt] at h
  | [a, b, c, d] => simp [versionAt] at h
  | a :: b :: c :: d :: e :: rest =>
    simp only [versionAt] at h
    by_cases hc : (pyIsDigit a && b = '.' && pyIsDigit c && d = '.' && pyIsDigit e) = true
    · rw [if_pos hc] at h
      injection h with hv
      simp only [Bool.and_eq_true, decide_eq_true_eq] at hc
      obtain ⟨⟨⟨⟨ha, hb⟩, hcc⟩, hd⟩, he⟩ := hc
      subst hb; subst hd
      exact ⟨a, c, e, hv.symm, ha, hcc, he⟩
    · rw [if_neg hc] at h
      exact Option.noConfusion h

/-- Whatever re.search extracts with the version pattern has the shape
digit dot digit dot digit. -/
theorem extract_version_shape :
    ∀ {s v : List Char}, extract_version s = some v →
    ∃ x y z, v = [x, '.', y, '.', z] ∧ pyIsDigit x = true ∧ pyIsDigit y = true ∧
      pyIsDigit z = true := by
  intro s
  induction s with
  | nil => intro v h; simp [extract_version] at h
  | cons c t ih =>
    intro v h
    simp only [extract_version] at h
    cases hva : versionAt (c :: t) with
    | some w =>
      rw [hva] at h
      injection h with hw
      exact hw ▸ versionAt_shape hva
    | none =>
      rw [hva] at h
      exact ih h

/-- On two single-digit dotted triples, Python byte-string comparison
agrees with component-wise numeric comparison. -/
theorem pyStrLt_ddd (x y z d e f : Char)
    (hx : pyIsDigit x = true) (hy : pyIsDigit y = true) (hz : pyIsDigit z = true)
    (hd : pyIsDigit d = true) (he : pyIsDigit e = true) (hf : pyIsDigit f = true) :
    pyStrLtL [x, '.', y, '.', z] [d, '.', e, '.', f] =
      natListLt [x.toNat - 48, y.toNat - 48, z.toNat - 48]
        [d.toNat - 48, e.toNat - 48, f.toNat - 48] := by
  obtain ⟨hx1, hx2⟩ := pyIsDigit_bounds hx
  obtain ⟨hy1, hy2⟩ := pyIsDigit_bounds hy
  obtain ⟨hz1, hz2⟩ := pyIsDigit_bounds hz
  obtain ⟨hd1, hd2⟩ := pyIsDigit_bounds hd
  obtain ⟨he1, he2⟩ := pyIsDigit_bounds he
  obtain ⟨hf1, hf2⟩ := pyIsDigit_bounds hf
  simp only [pyStrLtL, natListLt, if_true]
  by_cases h1 : x.toNat = d.toNat
  · rw [if_pos h1, if_pos (show x.toNat - 48 = d.toNat - 48 by omega)]
    by_cases h2 : y.toNat = e.toNat
    · rw [if_pos h2, if_pos (show y.toNat - 48 = e.toNat - 48 by omega)]
      by_cases h3 : z.toNat = f.toNat
      · rw [if_pos h3, if_pos (show z.toNat - 48 = f.toNat - 48 by omega)]
      · rw [if_neg h3, if_neg (show ¬(z.toNat - 48 = f.toNat - 48) by omega)]
        exact decide_eq_decide.mpr (by omega)
    · rw [if_neg h2, if_neg (show ¬(y.toNat - 48 = e.toNat - 48) by omega)]
      exact decide_eq_decide.mpr (by omega)
  · rw [if_neg h1, if_neg (show ¬(x.toNat - 48 = d.toNat - 48) by omega)]
    exact decide_eq_decide.mpr (by omega)

/-- The numeric components of a single-digit dotted triple. -/
theorem spec_components_ddd (x y z : Char)
    (hx : pyIsDigit x = true) (hy : pyIsDigit y = true) (hz : pyIsDigit z = true) :
    (splitOnDot [x, '.', y, '.', z]).map digitsToNat =
      [x.toNat - 48, y.toNat - 48, z.toNat - 48] := by
  have hxne : ¬(x = '.') := by intro hcon; rw [hcon] at hx; simp [pyIsDigit] at hx
  have hyne : ¬(y = '.') := by intro hcon; rw [hcon] at hy; simp [pyIsDigit] at hy
  have hzne : ¬(z = '.') := by intro hcon; rw [hcon] at hz; simp [pyIsDigit] at hz
  simp [splitOnDot, splitOnDotAux, hxne, hyne, hzne, digitsToNat]

/-- Claim C4: the release-version gates behave as parsed, component-wise
numeric comparison: for every device version string the d.d.d regex can
extract, the below-minimum rejection happens exactly when the extracted
version is numerically below 5.3.3, and the FPD-SMU branch applies
exactly when it is numerically below 6.1.1; the string 5.10.0 is not
extractable by the version regex (the gate rejects it as a bad
os_version instead of comparing it), it is not numerically below 5.3.3,
and only a raw string comparison - which the extracted versions never
exercise on multi-digit components - would call it smaller. -/
theorem c4_version_gates :
    (∀ (os_version : String) (v : List Char),
      extract_version os_version.data = some v →
      ((run_version_gate os_version = .belowMinimum) ↔
        specNumericVersionLt (String.mk v) MINIMUM_RELEASE_VERSION_FOR_MIGRATION = true)
      ∧ fpd_smu_needed (String.mk v) =
          specNumericVersionLt (String.mk v) RELEASE_VERSION_DOES_NOT_NEED_FPD_SMU)
  ∧ run_version_gate "5.10.0" = .badOsVersion
  ∧ specNumericVersionLt "5.10.0" "5.3.3" = false
  ∧ pyStrLt "5.10.0" "5.3.3" = true := by
  refine ⟨?_, rfl, by decide, by decide⟩
  intro os v hv
  obtain ⟨x, y, z, rfl, hx, hy, hz⟩ := extract_version_shape hv
  have h533 : pyStrLt (String.mk [x, '.', y, '.', z]) "5.3.3" =
      specNumericVersionLt (String.mk [x, '.', y, '.', z]) "5.3.3" := by
    have e1 : pyStrLt (String.mk [x, '.', y, '.', z]) "5.3.3" =
        pyStrLtL [x, '.', y, '.', z] ['5', '.', '3', '.', '3'] := rfl
    have e2 : specNumericVersionLt (String.mk [x, '.', y, '.', z]) "5.3.3" =
        natListLt ((splitOnDot [x, '.', y, '.', z]).map digitsToNat)
          ((splitOnDot ['5', '.', '3', '.', '3']).map digitsToNat) := rfl
    rw [e1, e2, pyStrLt_ddd x y z '5' '3' '3' hx hy hz (by decide) (by decide) (by decide),
      spec_components_ddd x y z hx hy hz,
      spec_components_ddd '5' '3' '3' (by decide) (by decide) (by decide)]
  have h611 : pyStrLt (String.mk [x, '.', y, '.', z]) "6.1.1" =
      specNumericVersionLt (String.mk [x, '.', y, '.', z]) "6.1.1" := by
    have e1 : pyStrLt (String.mk [x, '.', y, '.', z]) "6.1.1" =
        pyStrLtL [x, '.', y, '.', z] ['6', '.', '1', '.', '1'] := rfl
    have e2 : specNumericVersionLt (String.mk [x, '.', y, '.', z]) "6.1.1" =
        natListLt ((splitOnDot [x, '.', y, '.', z]).map digitsToNat)
          ((splitOnDot ['6', '.', '1', '.', '1']).map digitsToNat) := rfl
    rw [e1, e2, pyStrLt_ddd x y z '6' '1' '1' hx hy hz (by decide) (by decide) (by decide),
      spec_components_ddd x y z hx hy hz,
      spec_components_ddd '6' '1' '1' (by decide) (by decide) (by decide)]
  have em : MINIMUM_RELEASE_VERSION_FOR_MIGRATION = "5.3.3" := rfl
  have es : RELEASE_VERSION_DOES_NOT_NEED_FPD_SMU = "6.1.1" := rfl
  constructor
  · rw [em]
    simp only [run_version_gate, hv, em]
    rw [h533]
    cases hs : specNumericVersionLt (String.mk [x, '.', y, '.', z]) "5.3.3" with
    | true => simp
    | false => simp
  · rw [es, fpd_smu_needed, es, h611]

/-- Claim C4 witness: the version 5.3.3 is extractable, and the gate
rejects as below minimum exactly when the numeric comparison says it is
below 5.3.3 (here it is not). -/
theorem c4_version_gates_witness :
    extract_version ("5.3.3").data = some ['5', '.', '3', '.', '3']
  ∧ ((run_version_gate "5.3.3" = .belowMinimum) ↔
      specNumericVersionLt (String.mk ['5', '.', '3', '.', '3'])
        MINIMUM_RELEASE_VERSION_FOR_MIGRATION = true) :=
  ⟨rfl, (c4_version_gates.1 "5.3.3" ['5', '.', '3', '.', '3'] rfl).1⟩

end Csmpe


